import Mathlib

/-! Emergent → Vercel deploy extension: verification development.

A shallow embedding of the JavaScript sources of the Chrome extension
(`chrome-extension/content.js`, `popup.js`, `background.js`) and of the dashboard
(`frontend/src/components/*.js`, `frontend/src/services/api.js`), followed by the
theorems that settle the properties stated for them.

Conventions of the embedding

* A JavaScript string is the list of its UTF-16 code units (`JsString`).  The regular
  expression of the clean-up step has no `u` flag, so it works code unit by code unit,
  and so do `trim`, `includes` and `split`.
* Built-ins whose result depends on the Unicode tables or on the engine
  (`toLowerCase`, the text of engine-made error messages, `String(x)` of a non-string)
  are parameters of the definitions that use them.
* A JavaScript object is the list of its own enumerable properties; only property
  look-up is observed, never the enumeration order.
-/

namespace EmergentDeploy

/-! ## JavaScript strings -/

/-- A JavaScript string, as the sequence of its UTF-16 code units. -/
abbrev JsString := List Nat

/-- UTF-16 code units of one Unicode scalar value. -/
def utf16Char (c : Char) : List Nat :=
  if c.toNat < 0x10000 then [c.toNat]
  else [0xD800 + (c.toNat - 0x10000) / 0x400, 0xDC00 + (c.toNat - 0x10000) % 0x400]

/-- UTF-16 code units of a list of characters. -/
def utf16Chars : List Char → JsString
  | [] => []
  | c :: cs => utf16Char c ++ utf16Chars cs

/-- The JavaScript string written by a string literal. -/
def js (s : String) : JsString := utf16Chars s.toList

/-- Code units `a`–`z` and `A`–`Z`. -/
def isAsciiLetter (c : Nat) : Bool :=
  (97 ≤ c && c ≤ 122) || (65 ≤ c && c ≤ 90)

/-- Code units `0`–`9`. -/
def isAsciiDigit (c : Nat) : Bool := 48 ≤ c && c ≤ 57

/-- The hyphen-minus `-`. -/
def isHyphen (c : Nat) : Bool := c == 45

/-- The code units matched by `\s` in a regular expression, which are also the ones
`String.prototype.trim` strips: ECMAScript WhiteSpace and LineTerminator
(TAB, LF, VT, FF, CR, SP, NBSP, U+1680, U+2000–U+200A, LS, PS, U+202F, U+205F,
U+3000, U+FEFF). -/
def isWhiteSpace (c : Nat) : Bool :=
  c == 0x9 || c == 0xA || c == 0xB || c == 0xC || c == 0xD || c == 0x20 ||
  c == 0xA0 || c == 0x1680 || (0x2000 ≤ c && c ≤ 0x200A) ||
  c == 0x2028 || c == 0x2029 || c == 0x202F || c == 0x205F || c == 0x3000 ||
  c == 0xFEFF

/-- `String.prototype.trim`. -/
def trim (s : JsString) : JsString :=
  (s.dropWhile isWhiteSpace).rdropWhile isWhiteSpace

/-- The operator `a || b` on two strings: the empty string is the only falsy one. -/
def strOr (a b : JsString) : JsString := if a = [] then b else a

/-! ## Project-name extraction (`content.js`, `popup.js`) -/

/-- The character class `[a-zA-Z0-9\s-]` whose complement is the clean-up pattern
`/[^a-zA-Z0-9\s-]/g`: a code unit is deleted exactly when this is `false`. -/
def keptByCleanUpPattern (c : Nat) : Bool :=
  isAsciiLetter c || isAsciiDigit c || isWhiteSpace c || isHyphen c

/-- `projectName.replace(/[^a-zA-Z0-9\s-]/g, '')`. -/
def replaceDisallowed (s : JsString) : JsString := s.filter keptByCleanUpPattern

/-- The literal `'Emergent Project'`. -/
def defaultProjectName : JsString := js "Emergent Project"

/-- The clean-up step, `content.js` lines 77–79 and `popup.js` lines 186–188:
```
projectName = projectName.replace(/[^a-zA-Z0-9\s-]/g, '').trim();
if (!projectName) projectName = 'Emergent Project';
```
-/
def cleanUpProjectName (projectName : JsString) : JsString :=
  let projectName := trim (replaceDisallowed projectName)
  if projectName = [] then defaultProjectName else projectName

/-- The object returned by both extractors. -/
structure ProjectInfo where
  projectName : JsString
  emergentUrl : JsString
  framework : JsString
  deriving DecidableEq, Repr

/-- What the extractors read from the page: `window.location.href`, `document.title`
and the `textContent` of the first element matching
`h1, .chat-title, [data-testid="chat-title"]` (`none` when `querySelector` gives `null`). -/
structure PageContext where
  href : JsString
  title : JsString
  chatTitle : Option JsString
  deriving DecidableEq, Repr

/-- `extractProjectInfo` of `content.js`. -/
def extractProjectInfo (page : PageContext) : ProjectInfo :=
  let projectName := defaultProjectName
  let projectName :=
    match page.chatTitle with
    | some textContent => strOr (trim textContent) projectName
    | none => projectName
  { projectName := cleanUpProjectName projectName
    emergentUrl := page.href
    framework := js "React" }

/-- The function `extractProjectInfoFromTab` of `popup.js` injects into the tab. -/
def injectedExtractor (page : PageContext) : ProjectInfo :=
  let title := strOr page.title defaultProjectName
  let projectName := title
  let projectName :=
    match page.chatTitle with
    | some textContent => if trim textContent ≠ [] then trim textContent else projectName
    | none => projectName
  { projectName := cleanUpProjectName projectName
    emergentUrl := page.href
    framework := js "React" }

/-- The function `extractProjectInfoFromTab` of `popup.js` around the injected
function: `page` is `none` when `chrome.scripting.executeScript` throws or gives no
result, and then the default project info with the tab's URL is returned. -/
def extractProjectInfoFromTab (tabUrl : JsString) (page : Option PageContext) : ProjectInfo :=
  let projectInfo : ProjectInfo :=
    { projectName := js "Emergent Project", emergentUrl := tabUrl, framework := js "React" }
  match page with
  | some p => injectedExtractor p
  | none => projectInfo

/-! ## The Deployments view (`Deployments.js`) -/

/-- `s.includes(t)`: `t` occurs in `s` as a run of consecutive code units. -/
def includes (s t : JsString) : Bool := s.tails.any fun u => t.isPrefixOf u

/-- A deployment record as the dashboard receives it (§3 of the specification);
`vercelUrl`, `deployTime` and `error` are `none` when `null` or absent. -/
structure Deployment where
  id : JsString
  projectName : JsString
  emergentUrl : JsString
  vercelUrl : Option JsString
  status : JsString
  createdAt : JsString
  deployTime : Option JsString
  framework : JsString
  error : Option JsString
  deriving DecidableEq, Repr

/-- The predicate of the search filter, `Deployments.js` lines 48–51. -/
def matchesSearch (toLowerCase : JsString → JsString) (searchTerm : JsString)
    (deployment : Deployment) : Bool :=
  includes (toLowerCase deployment.projectName) (toLowerCase searchTerm) ||
  includes (toLowerCase deployment.framework) (toLowerCase searchTerm)

/-- The block `if (searchTerm) { filtered = filtered.filter(...) }`, lines 47–52. -/
def applySearchFilter (toLowerCase : JsString → JsString) (searchTerm : JsString)
    (filtered : List Deployment) : List Deployment :=
  if searchTerm ≠ [] then filtered.filter (matchesSearch toLowerCase searchTerm) else filtered

/-- The block `if (statusFilter !== 'all') { filtered = filtered.filter(...) }`,
lines 55–57. -/
def applyStatusFilter (statusFilter : JsString) (filtered : List Deployment) :
    List Deployment :=
  if statusFilter ≠ js "all" then filtered.filter (fun deployment => deployment.status = statusFilter)
  else filtered

/-- The filter effect of the Deployments view, lines 43–60: the value passed to
`setFilteredDeployments`. -/
def filteredDeployments (toLowerCase : JsString → JsString) (deployments : List Deployment)
    (searchTerm statusFilter : JsString) : List Deployment :=
  let filtered := deployments
  let filtered := applySearchFilter toLowerCase searchTerm filtered
  let filtered := applyStatusFilter statusFilter filtered
  filtered

/-- ASCII lower-casing: what `toLowerCase` does on strings of ASCII code units.  Used
only to evaluate the filter at concrete ASCII inputs. -/
def asciiToLowerCase (s : JsString) : JsString :=
  s.map fun c => if 65 ≤ c ∧ c ≤ 90 then c + 32 else c

/-- A deployment record with the given `id` and `status` and fixed other fields, for
evaluating the filter at concrete lists. -/
def sampleDeployment (id status : JsString) : Deployment :=
  { id := id, projectName := js "AI Chat App", emergentUrl := js "https://app.emergent.sh/chat/x",
    vercelUrl := none, status := status, createdAt := js "2025-01-20T10:30:00Z",
    deployTime := none, framework := js "React", error := none }

/-- The condition of the Deployments view's filter, in the specification's words: the
search term is empty or occurs, lower-cased, in the lower-cased project name or
framework; and the status filter is `'all'` or equals the record's status. -/
def passesFilters (toLowerCase : JsString → JsString) (searchTerm statusFilter : JsString)
    (r : Deployment) : Bool :=
  (decide (searchTerm = []) || includes (toLowerCase r.projectName) (toLowerCase searchTerm) ||
    includes (toLowerCase r.framework) (toLowerCase searchTerm)) &&
  (decide (statusFilter = js "all") || decide (r.status = statusFilter))

/-! ## JavaScript values and objects -/

/-- A JavaScript number (an IEEE double): a finite `mantissa * 2 ^ exponent`, an
infinity or NaN. -/
inductive JsNumber
  | finite (mantissa exponent : Int)
  | posInf
  | negInf
  | nan
  deriving DecidableEq, Repr

/-- A JavaScript value of the kinds JSON and the settings objects are made of. -/
inductive JsValue
  | undefined
  | null
  | bool (b : Bool)
  | num (n : JsNumber)
  | str (s : JsString)
  | arr (items : List JsValue)
  | obj (props : List (JsString × JsValue))
  deriving Repr

/-- The own enumerable properties of an object, as key–value pairs. -/
abbrev JsObject := List (JsString × JsValue)

/-- ToBoolean: `undefined`, `null`, `false`, `±0`, `NaN` and `''` are falsy. -/
def truthy : JsValue → Bool
  | .undefined => false
  | .null => false
  | .bool b => b
  | .num (.finite m _) => m ≠ 0
  | .num .nan => false
  | .num _ => true
  | .str s => s ≠ []
  | .arr _ => true
  | .obj _ => true

/-- The operator `a || b`. -/
def jsOr (a b : JsValue) : JsValue := if truthy a then a else b

/-- The operator `a ?? b`. -/
def nullish (a b : JsValue) : JsValue :=
  match a with
  | .undefined => b
  | .null => b
  | v => v

/-- Property read `o[k]` on a plain object: the value of the own property, else
`undefined`. -/
def getProp (k : JsString) : JsObject → JsValue
  | [] => .undefined
  | (k', v) :: rest => if k' = k then v else getProp k rest

/-- Definition of the property `k` in an object literal (`{ ..., [k]: v }`): an existing
property gets the new value, a new one is added. -/
def setProp (k : JsString) (v : JsValue) : JsObject → JsObject
  | [] => [(k, v)]
  | (k', v') :: rest => if k' = k then (k, v) :: rest else (k', v') :: setProp k v rest

/-- The decimal digits of a natural number, as a JavaScript string. -/
def natToJs (n : Nat) : JsString := (Nat.repr n).toList.map Char.toNat

/-- The properties `0`, `1`, ... of an array or of a string. -/
def indexProps (items : List JsValue) : JsObject :=
  items.enum.map fun p => (natToJs p.1, p.2)

/-- The properties an object spread `{ ...v }` copies: the own enumerable properties of
an object, the indexed elements of an array or string, nothing for `undefined`, `null`,
booleans and numbers. -/
def spreadProps : JsValue → JsObject
  | .obj props => props
  | .arr items => indexProps items
  | .str s => indexProps (s.map fun c => .str [c])
  | _ => []

/-- ToString of a value: fixed by the language for strings, `undefined`, `null` and
booleans; `render` gives the engine's text for numbers, arrays and objects. -/
def toStringWith (render : JsValue → JsString) : JsValue → JsString
  | .str s => s
  | .undefined => js "undefined"
  | .null => js "null"
  | .bool true => js "true"
  | .bool false => js "false"
  | v => render v

/-! ## The Settings view (`Settings.js`) -/

/-- `s.split(sep)` for a one-code-unit separator. -/
def split (sep : Nat) : JsString → List JsString
  | [] => [[]]
  | c :: cs =>
    if c = sep then [] :: split sep cs
    else
      match split sep cs with
      | [] => [[c]]
      | seg :: rest => (c :: seg) :: rest

/-- The code unit of `.`. -/
def dot : Nat := 46

/-- The state update of `updateSetting(key, value)`, `Settings.js` lines 67–80, applied
to the loaded settings object `prev`.  `const [parent, child] = key.split('.')` takes the
first two segments; a missing one would be `undefined`, whose property key is
`'undefined'`.  Members inherited from `Object.prototype` have no enumerable properties,
so spreading one copies nothing, as spreading `undefined` does. -/
def updateSetting (key : JsString) (value : JsValue) (prev : JsObject) : JsObject :=
  if includes key [dot] then
    let segments := split dot key
    let parent := segments.getD 0 (js "undefined")
    let child := segments.getD 1 (js "undefined")
    setProp parent (.obj (setProp child value (spreadProps (getProp parent prev))))
      (spreadProps (.obj prev))
  else
    setProp key value (spreadProps (.obj prev))

/-- The literal `mockSettings` of `mock.js`. -/
def mockSettings : JsObject :=
  [ (js "vercelApiToken", .str (js "RsTPzeiivD3UfVAkgGm7sGaC")),
    (js "autoDeployEnabled", .bool true),
    (js "defaultTeam", .str (js "personal")),
    (js "deploymentRegion", .str (js "us-east-1")),
    (js "notifications", .obj
      [ (js "success", .bool true), (js "failures", .bool true), (js "building", .bool false) ]) ]

/-! ## HTTP outcomes and user-visible effects -/

/-- Property read `v[k]` on a value, `none` when it throws a TypeError (`v` is `null` or
`undefined`).  Own properties of objects, `length` and the indexed elements of arrays and
strings are found; inherited methods are functions and are not modelled (the sources
read `detail` and `projectName`, which are not among them). -/
def readProp (k : JsString) : JsValue → Option JsValue
  | .undefined => none
  | .null => none
  | .obj props => some (getProp k props)
  | .arr items =>
    some (if k = js "length" then .num (.finite items.length 0) else getProp k (indexProps items))
  | .str s =>
    some (if k = js "length" then .num (.finite s.length 0)
      else getProp k (indexProps (s.map fun c => .str [c])))
  | _ => some .undefined

/-- An HTTP response as `fetch` resolves it.  `json` is the outcome of
`await response.json()`: the parsed body, or the message of the error it rejects with
when the body is not JSON. -/
structure Response where
  status : Nat
  json : Except JsString JsValue

/-- `response.ok`: the status is in the range 200–299. -/
def Response.ok (response : Response) : Bool :=
  200 ≤ response.status && response.status ≤ 299

/-- Outcome of `await fetch(...)`: rejection with an error of the given message (no
response was received) or a response. -/
inductive FetchOutcome
  | rejected (message : JsString)
  | resolved (response : Response)

/-- The callbacks the scripts hand to `setTimeout`. -/
inductive Callback
  | loadDashboardData
  | resetButton
  deriving DecidableEq, Repr

/-- The markup the content script writes into its button. -/
inductive ButtonMarkup
  /-- The value of `originalContent`, read before the attempt. -/
  | original
  /-- The spinner icon followed by `Deploying...`. -/
  | deploying
  /-- The check icon followed by `Deployed!`. -/
  | deployed
  deriving DecidableEq, Repr

/-- What a handler does to the outside, in program order. -/
inductive Effect
  /-- `fetch(API_BASE + '/deployments', { method: 'POST', body: JSON.stringify(body) })`. -/
  | post (body : JsValue)
  /-- `deployBtn.textContent = text` (popup). -/
  | setText (text : JsString)
  /-- `button.innerHTML = ...` (content script). -/
  | setInnerHTML (markup : ButtonMarkup)
  /-- `button.disabled = disabled`. -/
  | setDisabled (disabled : Bool)
  /-- `button.style[property] = value`. -/
  | setStyle (property value : JsString)
  /-- `showError(message)` of `popup.js`. -/
  | showError (message : JsString)
  /-- `showNotification(title, message, type)` of `content.js`. -/
  | showNotification (title message type : JsString)
  /-- `chrome.notifications.create({ type: 'basic', iconUrl, title, message })`. -/
  | notificationsCreate (title message : JsString)
  /-- `console.error(label, error)`, with the message of the logged error. -/
  | consoleError (label message : JsString)
  /-- `setTimeout(callback, ms)`. -/
  | setTimeout (callback : Callback) (ms : Nat)

/-- The object `{ projectName, emergentUrl, framework }` as a value. -/
def ProjectInfo.toJs (info : ProjectInfo) : JsValue :=
  .obj [ (js "projectName", .str info.projectName),
         (js "emergentUrl", .str info.emergentUrl),
         (js "framework", .str info.framework) ]

/-- The messages passed to `showError`, in order. -/
def shownErrors (effects : List Effect) : List JsString :=
  effects.filterMap fun e =>
    match e with
    | .showError message => some message
    | _ => none

/-- The `(title, message, type)` triples passed to `showNotification`, in order. -/
def shownNotifications (effects : List Effect) : List (JsString × JsString × JsString) :=
  effects.filterMap fun e =>
    match e with
    | .showNotification title message type => some (title, message, type)
    | _ => none

/-- The `(title, message)` pairs passed to `chrome.notifications.create`, in order. -/
def createdNotifications (effects : List Effect) : List (JsString × JsString) :=
  effects.filterMap fun e =>
    match e with
    | .notificationsCreate title message => some (title, message)
    | _ => none

/-! ## The dashboard API client (`services/api.js`) -/

/-- The `response` of a failed axios call: status and parsed body. -/
structure ErrorResponse where
  status : Nat
  data : JsValue

/-- The error a failed axios call rejects with: `error.response` (`none` when no
response was received) and `error.message`. -/
structure CaughtError where
  response : Option ErrorResponse
  message : JsValue

/-- `error.response?.data?.detail`. -/
def CaughtError.detail (error : CaughtError) : JsValue :=
  match error.response with
  | none => .undefined
  | some response =>
    match readProp (js "detail") response.data with
    | none => .undefined
    | some detail => detail

/-- `withErrorHandling(apiCall)(...args)`, `api.js` lines 58–67, given the outcome of
`await apiCall(...args)`: a result is passed through, a caught error is replaced by
`new Error(error.response?.data?.detail || error.message || 'An error occurred')`,
of which the message is kept.  The `console.error` line only logs and is left out. -/
def withErrorHandling {α : Type} (render : JsValue → JsString) (apiCall : Except CaughtError α) :
    Except JsString α :=
  match apiCall with
  | .ok result => .ok result
  | .error error =>
    .error (toStringWith render
      (jsOr (jsOr error.detail error.message) (.str (js "An error occurred"))))

/-! ## The popup (`popup.js`) -/

/-- A tab as `chrome.tabs.query` gives it; `url` is `none` when the property is absent. -/
structure Tab where
  url : Option JsString

/-- The `catch` block of the popup's `handleDeploy`, lines 152–160. -/
def Popup.catchBlock (originalText message : JsString) : List Effect :=
  [ .consoleError (js "Deployment error:") message,
    .showError message,
    .setText originalText,
    .setDisabled false,
    .setStyle (js "opacity") (js "1") ]

/-- `handleDeploy` of `popup.js`, lines 90–161.  Inputs: the engine's message for the
TypeError of reading property `k` of `v` (`typeErrorMessage v k`), the engine's
`String(x)` for non-strings, the button's text, the result of `chrome.tabs.query`, what
the injected extractor sees, and the outcome of the POST. -/
def Popup.handleDeploy (typeErrorMessage : JsValue → JsString → JsString)
    (render : JsValue → JsString) (originalText : JsString) (tabs : List Tab)
    (page : Option PageContext) (fetchOutcome : FetchOutcome) : List Effect :=
  match tabs.head? with
  | none => Popup.catchBlock originalText (typeErrorMessage .undefined (js "url"))
  | some tab =>
    match tab.url with
    | none => [.showError (js "Please navigate to an Emergent chat page to deploy")]
    | some url =>
      if url = [] || !includes url (js "app.emergent.sh/chat") then
        [.showError (js "Please navigate to an Emergent chat page to deploy")]
      else
        let projectInfo := extractProjectInfoFromTab url page
        [ .setText (js "Deploying..."), .setDisabled true, .setStyle (js "opacity") (js "0.7"),
          .post projectInfo.toJs ] ++
        match fetchOutcome with
        | .rejected message => Popup.catchBlock originalText message
        | .resolved response =>
          if !response.ok then
            match response.json with
            | .error message => Popup.catchBlock originalText message
            | .ok errorData =>
              match readProp (js "detail") errorData with
              | none => Popup.catchBlock originalText (typeErrorMessage errorData (js "detail"))
              | some detail =>
                Popup.catchBlock originalText
                  (toStringWith render (jsOr detail (.str (js "Deployment failed"))))
          else
            match response.json with
            | .error message => Popup.catchBlock originalText message
            | .ok _deployment =>
              [ .setText (js "Deployed!"),
                .setStyle (js "background") (js "linear-gradient(135deg, #48bb78 0%, #38a169 100%)"),
                .notificationsCreate (js "Deployment Started")
                  (projectInfo.projectName ++ js " is being deployed to Vercel"),
                .setTimeout .loadDashboardData 1000,
                .setTimeout .resetButton 3000 ]

/-! ## The content script (`content.js`) -/

/-- The `catch` block of the content script's `handleDeploy`, lines 143–153; `message`
is the message of the caught error, which is only logged. -/
def Content.catchBlock (message : JsString) : List Effect :=
  [ .consoleError (js "Deployment failed:") message,
    .showNotification (js "Error") (js "Deployment failed. Please check your settings.")
      (js "error"),
    .setInnerHTML .original,
    .setStyle (js "opacity") (js "1"),
    .setDisabled false ]

/-- `handleDeploy` of `content.js`, lines 89–154.  `buttonPresent` tells whether
`document.querySelector('#emergent-deploy-btn')` finds the button. -/
def Content.handleDeploy (buttonPresent : Bool) (page : PageContext)
    (fetchOutcome : FetchOutcome) : List Effect :=
  if !buttonPresent then []
  else
    let projectInfo := extractProjectInfo page
    [ .setInnerHTML .deploying, .setStyle (js "opacity") (js "0.8"), .setDisabled true,
      .post projectInfo.toJs ] ++
    match fetchOutcome with
    | .rejected message => Content.catchBlock message
    | .resolved response =>
      if !response.ok then
        Content.catchBlock (js "HTTP error! status: " ++ natToJs response.status)
      else
        match response.json with
        | .error message => Content.catchBlock message
        | .ok _deployment =>
          [ .showNotification (js "Success") (js "Deployment started successfully!")
              (js "success"),
            .setInnerHTML .deployed,
            .setStyle (js "background") (js "linear-gradient(135deg, #48bb78 0%, #38a169 100%)"),
            .setTimeout .resetButton 3000 ]

/-! ## The background script (`background.js`) -/

/-- What `handleDeployment` did and how its promise settled: fulfilled with the parsed
response, or rejected with an error of the given message. -/
structure DeploymentRun where
  effects : List Effect
  outcome : Except JsString JsValue

/-- `handleDeployment` of `background.js`, lines 43–72; the `catch` block logs and
rethrows. -/
def Background.handleDeployment (typeErrorMessage : JsValue → JsString → JsString)
    (render : JsValue → JsString) (deploymentData : JsValue) (fetchOutcome : FetchOutcome) :
    DeploymentRun :=
  let rethrow (message : JsString) : DeploymentRun :=
    { effects := [.post deploymentData, .consoleError (js "Background deployment error:") message]
      outcome := .error message }
  match fetchOutcome with
  | .rejected message => rethrow message
  | .resolved response =>
    if !response.ok then rethrow (js "HTTP error! status: " ++ natToJs response.status)
    else
      match response.json with
      | .error message => rethrow message
      | .ok result =>
        match readProp (js "projectName") deploymentData with
        | none => rethrow (typeErrorMessage deploymentData (js "projectName"))
        | some projectName =>
          { effects :=
              [ .post deploymentData,
                .notificationsCreate (js "Emergent Deploy")
                  (js "Deployment started for " ++ toStringWith render projectName) ]
            outcome := .ok result }

/-- `getSettings` of `background.js`, lines 75–88, given the object `result` that
`chrome.storage.sync.get` passes to its callback. -/
def Background.getSettings (result : JsObject) : JsValue :=
  .obj
    [ (js "autoDeployEnabled", nullish (getProp (js "autoDeployEnabled") result) (.bool true)),
      (js "notifications", nullish (getProp (js "notifications") result)
        (.obj [ (js "success", .bool true), (js "failures", .bool true),
                (js "building", .bool false) ])) ]

/-- The argument the message listener passes to `sendResponse`. -/
inductive Reply
  /-- `{ success: true, data }`. -/
  | success (data : JsValue)
  /-- `{ success: false, error }`. -/
  | failure (error : JsString)

/-- What the message listener did: the effects, the reply it sends (if any) and its
return value (`true` keeps the channel open; otherwise it returns `undefined`). -/
structure ListenerRun where
  effects : List Effect
  reply : Option Reply
  returned : Bool

/-- The `chrome.runtime.onMessage` listener of `background.js`, lines 24–40, for a
request with the given `action` and `data`; `stored` is what storage holds. -/
def Background.onMessage (typeErrorMessage : JsValue → JsString → JsString)
    (render : JsValue → JsString) (action : JsString) (data : JsValue)
    (stored : JsObject) (fetchOutcome : FetchOutcome) : ListenerRun :=
  if action = js "deploy" then
    let run := Background.handleDeployment typeErrorMessage render data fetchOutcome
    { effects := run.effects
      reply := some (match run.outcome with
        | .ok result => .success result
        | .error message => .failure message)
      returned := true }
  else if action = js "getSettings" then
    { effects := [], reply := some (.success (Background.getSettings stored)), returned := true }
  else
    { effects := [], reply := none, returned := false }

/-! ## Status presentation (`Dashboard.js`, `Deployments.js`) -/

/-- The icon components the two views import from `lucide-react`. -/
inductive IconComponent
  | CheckCircle
  | Clock
  | XCircle
  | RefreshCw
  deriving DecidableEq, Repr

/-- A rendered icon element `<Component className="..." />`. -/
structure Icon where
  component : IconComponent
  className : JsString
  deriving DecidableEq, Repr

/-- `getStatusIcon` of `Dashboard.js`, lines 45–56. -/
def Dashboard.getStatusIcon (status : JsString) : Icon :=
  if status = js "deployed" then ⟨.CheckCircle, js "w-4 h-4 text-green-500"⟩
  else if status = js "building" then ⟨.Clock, js "w-4 h-4 text-blue-500 animate-spin"⟩
  else if status = js "failed" then ⟨.XCircle, js "w-4 h-4 text-red-500"⟩
  else ⟨.Clock, js "w-4 h-4 text-slate-400"⟩

/-- `getStatusIcon` of `Deployments.js`, lines 62–73. -/
def Deployments.getStatusIcon (status : JsString) : Icon :=
  if status = js "deployed" then ⟨.CheckCircle, js "w-5 h-5 text-green-500"⟩
  else if status = js "building" then ⟨.RefreshCw, js "w-5 h-5 text-blue-500 animate-spin"⟩
  else if status = js "failed" then ⟨.XCircle, js "w-5 h-5 text-red-500"⟩
  else ⟨.Clock, js "w-5 h-5 text-slate-400"⟩

/-- A rendered `<Badge className="...">label</Badge>`. -/
structure Badge where
  className : JsString
  label : JsString
  deriving DecidableEq, Repr

/-- The own property `k` of an object literal whose values are strings. -/
def ownString (k : JsString) : List (JsString × JsString) → Option JsString
  | [] => none
  | (k', v) :: rest => if k' = k then some v else ownString k rest

/-- The text that `variants[status]` contributes to a template literal.  An own property
gives its string; otherwise `inheritedText status` is the engine's text of the member of
that name inherited from `Object.prototype` (`constructor`, `toString`, ...), and `none`
when there is no such member, in which case the value is `undefined` and the text is
`'undefined'`. -/
def variantText (inheritedText : JsString → Option JsString)
    (variants : List (JsString × JsString)) (status : JsString) : JsString :=
  match ownString status variants with
  | some v => v
  | none =>
    match inheritedText status with
    | some text => text
    | none => js "undefined"

/-- `status.charAt(0).toUpperCase() + status.slice(1)`. -/
def capitalizeFirst (toUpperCase : JsString → JsString) (status : JsString) : JsString :=
  toUpperCase (status.take 1) ++ status.drop 1

/-- `getStatusBadge` of `Dashboard.js`, lines 58–70. -/
def Dashboard.getStatusBadge (toUpperCase : JsString → JsString)
    (inheritedText : JsString → Option JsString) (status : JsString) : Badge :=
  let variants :=
    [ (js "deployed", js "bg-green-100 text-green-700"),
      (js "building", js "bg-blue-100 text-blue-700"),
      (js "failed", js "bg-red-100 text-red-700") ]
  { className := variantText inheritedText variants status ++ js " border-0"
    label := capitalizeFirst toUpperCase status }

/-- `getStatusBadge` of `Deployments.js`, lines 75–87. -/
def Deployments.getStatusBadge (toUpperCase : JsString → JsString)
    (inheritedText : JsString → Option JsString) (status : JsString) : Badge :=
  let variants :=
    [ (js "deployed", js "bg-green-100 text-green-700 border-green-200"),
      (js "building", js "bg-blue-100 text-blue-700 border-blue-200"),
      (js "failed", js "bg-red-100 text-red-700 border-red-200") ]
  { className := variantText inheritedText variants status ++ js " border"
    label := capitalizeFirst toUpperCase status }

/-- ASCII upper-casing: what `toUpperCase` does on strings of ASCII code units.  Used
only to evaluate the badge at concrete ASCII inputs. -/
def asciiToUpperCase (s : JsString) : JsString :=
  s.map fun c => if 97 ≤ c ∧ c ≤ 122 then c - 32 else c

/-! ## The mock data and API (`mock.js`) -/

/-- The literal `mockDeployments` of `mock.js`, lines 3–45. -/
def mockDeployments : List Deployment :=
  [ { id := js "dep_1", projectName := js "AI Chat App",
      emergentUrl := js "https://app.emergent.sh/chat/project-ai-chat",
      vercelUrl := some (js "https://ai-chat-app-emergen.vercel.app"),
      status := js "deployed", createdAt := js "2025-01-20T10:30:00Z",
      deployTime := some (js "45s"), framework := js "React", error := none },
    { id := js "dep_2", projectName := js "Task Manager Pro",
      emergentUrl := js "https://app.emergent.sh/chat/project-task-manager",
      vercelUrl := some (js "https://task-manager-pro-emergent.vercel.app"),
      status := js "building", createdAt := js "2025-01-20T11:15:00Z",
      deployTime := some (js "32s"), framework := js "Next.js", error := none },
    { id := js "dep_3", projectName := js "E-commerce Dashboard",
      emergentUrl := js "https://app.emergent.sh/chat/project-ecommerce",
      vercelUrl := none,
      status := js "failed", createdAt := js "2025-01-20T09:45:00Z",
      deployTime := none, framework := js "React",
      error := some (js "Build failed: Missing environment variable") },
    { id := js "dep_4", projectName := js "Portfolio Website",
      emergentUrl := js "https://app.emergent.sh/chat/project-portfolio",
      vercelUrl := some (js "https://portfolio-emergent.vercel.app"),
      status := js "deployed", createdAt := js "2025-01-19T16:20:00Z",
      deployTime := some (js "28s"), framework := js "Vite", error := none } ]

/-- The keys of the own properties of an object. -/
def keys (o : JsObject) : List JsString := o.map Prod.fst

/-- Copying properties onto `target` one after the other, as the spread `...source` in
an object literal does with the properties of `source`. -/
def assign (target : JsObject) : JsObject → JsObject
  | [] => target
  | (k, v) :: rest => assign (setProp k v target) rest

/-- `mockApiCalls.getSettings` of `mock.js`, line 101: the promise resolves with the
module constant `mockSettings`, which no code reassigns or mutates. -/
def mockApiCalls.getSettings : JsObject := mockSettings

/-- `mockApiCalls.updateSettings` of `mock.js`, line 102: the promise resolves with
`{ ...mockSettings, ...newSettings }`. -/
def mockApiCalls.updateSettings (newSettings : JsValue) : JsObject :=
  assign (assign [] mockSettings) (spreadProps newSettings)

/-- `mockApiCalls.triggerDeployment` of `mock.js`, lines 105–110: the promise resolves
with `{ id, ...projectData, status: 'building', createdAt }`.  `now` is the value of
`Date.now()`, a count of milliseconds, and `isoNow` the text of
`new Date().toISOString()`. -/
def mockApiCalls.triggerDeployment (now : Nat) (isoNow : JsString) (projectData : JsValue) :
    JsObject :=
  setProp (js "createdAt") (.str isoNow)
    (setProp (js "status") (.str (js "building"))
      (assign [(js "id", .str (js "dep_" ++ natToJs now))] (spreadProps projectData)))

/-! ## Saving in the Settings view (`Settings.js`) -/

/-- A call `toast({ title, description, variant })`; `destructive` tells whether the
variant `"destructive"` was given. -/
structure Toast where
  title : JsString
  description : JsString
  destructive : Bool
  deriving DecidableEq, Repr

/-- The state of the Settings view. -/
structure SettingsView where
  settings : JsValue
  loading : Bool
  saving : Bool

/-- What `handleSave` did: the state updates in order, the toasts raised and the
resulting state of the view. -/
structure SaveRun where
  savingUpdates : List Bool
  toasts : List Toast
  logged : List JsString
  view : SettingsView

/-- `handleSave` of `Settings.js`, lines 47–65, given the outcome of
`await mockApiCalls.updateSettings(settings)`: the resolved object, or the message of the
error the promise rejects with. -/
def handleSave (view : SettingsView) (outcome : Except JsString JsObject) : SaveRun :=
  match outcome with
  | .ok _ =>
    { savingUpdates := [true, false]
      toasts := [⟨js "Success", js "Settings saved successfully", false⟩]
      logged := []
      view := { view with saving := false } }
  | .error message =>
    { savingUpdates := [true, false]
      toasts := [⟨js "Error", js "Failed to save settings", true⟩]
      logged := [message]
      view := { view with saving := false } }

/-- The number written by a string of decimal digits. -/
def decodeDecimal (s : JsString) : Nat := s.foldl (fun acc c => acc * 10 + (c - 48)) 0

/-- The three fields of a creation request. -/
def requestFields : List JsString := [js "projectName", js "emergentUrl", js "framework"]

/-! ## Installation and stored settings (`background.js`) -/

/-- The object the install handler passes to `chrome.storage.sync.set`, `background.js`
lines 12–19. -/
def installDefaults : JsObject :=
  [ (js "autoDeployEnabled", .bool true),
    (js "notifications", .obj [ (js "success", .bool true), (js "failures", .bool true),
                                (js "building", .bool false) ]) ]

/-- `chrome.storage.sync.set(items)`: every item is stored under its key, replacing what
was stored there; the other keys keep their values. -/
def storageSet (items storage : JsObject) : JsObject := assign storage items

/-- What the install handler did: the objects it passed to `chrome.storage.sync.set`, and
the storage afterwards. -/
structure InstallRun where
  writes : List JsObject
  storage : JsObject

/-- The `chrome.runtime.onInstalled` listener of `background.js`, lines 7–21, for
`details.reason = reason` and the given storage. -/
def Background.onInstalled (reason : JsString) (storage : JsObject) : InstallRun :=
  if reason = js "install" then
    { writes := [installDefaults], storage := storageSet installDefaults storage }
  else
    { writes := [], storage := storage }

/-! ## The badge (`background.js`) -/

/-- The badge as `updateBadge(text, color)` sets it, lines 91–94. -/
structure ActionBadge where
  text : JsString
  color : JsString
  deriving DecidableEq, Repr

/-- The tab events the background script listens to.  `activated tabId url` is
`chrome.tabs.onActivated` for the tab `tabId`, with the `url` of the tab that
`chrome.tabs.get` returns; `updated tabId status url` is `chrome.tabs.onUpdated` with
`changeInfo.status` and `tab.url`.  A `url` or `status` is `none` when the property is
absent. -/
inductive TabEvent
  | activated (tabId : Nat) (url : Option JsString)
  | updated (tabId : Nat) (status : Option JsString) (url : Option JsString)
  deriving DecidableEq, Repr

/-- `tab.url && tab.url.includes('app.emergent.sh/chat')`, as a condition. -/
def onEmergentChat (url : Option JsString) : Bool :=
  match url with
  | none => false
  | some u => u ≠ [] && includes u (js "app.emergent.sh/chat")

/-- The two tab listeners of `background.js`, lines 97–112: the badge after the event,
`none` as long as `updateBadge` has never been called. -/
def Background.onTabEvent (badge : Option ActionBadge) : TabEvent → Option ActionBadge
  | .activated _ url =>
    if onEmergentChat url then some ⟨js "", js "#4299e1"⟩ else some ⟨js "", js "#666666"⟩
  | .updated _ status url =>
    if status = some (js "complete") && onEmergentChat url then some ⟨js "", js "#4299e1"⟩
    else badge

/-- The badge after a sequence of tab events, starting with no badge set. -/
def Background.runTabEvents (events : List TabEvent) : Option ActionBadge :=
  events.foldl Background.onTabEvent none

/-- What the browser knows after a sequence of tab events: the id of the active tab (of
the last activation) and the latest URL reported for each tab. -/
structure TabsState where
  active : Option Nat
  urls : List (Nat × Option JsString)

/-- The browser's tabs after one more event. -/
def TabsState.step (s : TabsState) : TabEvent → TabsState
  | .activated tabId url => { active := some tabId, urls := (tabId, url) :: s.urls }
  | .updated tabId _ url => { s with urls := (tabId, url) :: s.urls }

/-- The URL of the currently active tab after a sequence of tab events: `none` when no tab
was activated, `some none` when the active tab has no URL. -/
def activeTabUrl (events : List TabEvent) : Option (Option JsString) :=
  let s := events.foldl TabsState.step { active := none, urls := [] }
  match s.active with
  | none => none
  | some tabId => (s.urls.find? fun p => p.1 = tabId).map Prod.snd

/-! ## The submit control -/

/-- The submit button: its text (popup), its markup (content script) and whether it is
disabled. -/
structure ButtonState where
  text : JsString
  markup : ButtonMarkup
  disabled : Bool
  deriving DecidableEq, Repr

/-- The button after one effect. -/
def ButtonState.apply (b : ButtonState) : Effect → ButtonState
  | .setText text => { b with text := text }
  | .setInnerHTML markup => { b with markup := markup }
  | .setDisabled disabled => { b with disabled := disabled }
  | _ => b

/-- The button after a list of effects. -/
def ButtonState.applyAll (b : ButtonState) (effects : List Effect) : ButtonState :=
  effects.foldl ButtonState.apply b

/-- The timers a handler started: callback and delay in milliseconds. -/
def scheduledTimers (effects : List Effect) : List (Callback × Nat) :=
  effects.filterMap fun e =>
    match e with
    | .setTimeout callback ms => some (callback, ms)
    | _ => none

/-- The body of the reset callback of the content script's `handleDeploy`, lines 136–141. -/
def Content.resetButton : List Effect :=
  [ .setInnerHTML .original,
    .setStyle (js "background") (js "linear-gradient(135deg, #667eea 0%, #764ba2 100%)"),
    .setStyle (js "opacity") (js "1"),
    .setDisabled false ]

/-- The body of the reset callback of the popup's `handleDeploy`, lines 145–150. -/
def Popup.resetButton (originalText : JsString) : List Effect :=
  [ .setText originalText,
    .setStyle (js "background") (js ""),
    .setDisabled false,
    .setStyle (js "opacity") (js "1") ]

/-! ## The state of the Deployments view (`Deployments.js`) -/

/-- The state of the Deployments view, lines 21–25. -/
structure DeploymentsView where
  deployments : List Deployment
  filteredDeployments : List Deployment
  searchTerm : JsString
  statusFilter : JsString
  deriving DecidableEq, Repr

/-- The state the view is created with. -/
def Deployments.initial : DeploymentsView :=
  { deployments := [], filteredDeployments := [], searchTerm := js "", statusFilter := js "all" }

/-- What changes the state of the view: the list arrives (`setDeployments(data)` and
`setFilteredDeployments(data)`, lines 31–32), the search box changes (`setSearchTerm`) or
the status select changes (`setStatusFilter`). -/
inductive DeploymentsEvent
  | loaded (data : List Deployment)
  | setSearchTerm (searchTerm : JsString)
  | setStatusFilter (statusFilter : JsString)
  deriving DecidableEq, Repr

/-- The filter effect, lines 43–60, run on a state: it reads `deployments`, `searchTerm` and
`statusFilter` and sets `filteredDeployments`. -/
def Deployments.filterEffect (toLowerCase : JsString → JsString) (v : DeploymentsView) :
    DeploymentsView :=
  { v with filteredDeployments :=
      EmergentDeploy.filteredDeployments toLowerCase v.deployments v.searchTerm v.statusFilter }

/-- One state change followed by the filter effect, which React runs after a render in
which one of `deployments`, `searchTerm`, `statusFilter` changed. -/
def Deployments.step (toLowerCase : JsString → JsString) (v : DeploymentsView) :
    DeploymentsEvent → DeploymentsView
  | .loaded data =>
    Deployments.filterEffect toLowerCase { v with deployments := data, filteredDeployments := data }
  | .setSearchTerm searchTerm =>
    Deployments.filterEffect toLowerCase { v with searchTerm := searchTerm }
  | .setStatusFilter statusFilter =>
    Deployments.filterEffect toLowerCase { v with statusFilter := statusFilter }

/-- The view after a sequence of state changes. -/
def Deployments.run (toLowerCase : JsString → JsString) (v : DeploymentsView)
    (events : List DeploymentsEvent) : DeploymentsView :=
  events.foldl (Deployments.step toLowerCase) v

/-! ## The Dashboard view (`Dashboard.js`) -/

/-- An activity event as the dashboard receives it. -/
structure Activity where
  id : JsString
  type : JsString
  message : JsString
  timestamp : JsString
  status : JsString
  deriving DecidableEq, Repr

/-- The state of the Dashboard view, lines 18–21; `stats` starts as `null`. -/
structure DashboardState where
  stats : JsValue
  recentActivity : List Activity
  recentDeployments : List Deployment
  loading : Bool

/-- The state the Dashboard is created with. -/
def Dashboard.initial : DashboardState :=
  { stats := .null, recentActivity := [], recentDeployments := [], loading := true }

/-- What the three joint loads of the Dashboard resolve with. -/
structure DashboardData where
  statsData : JsValue
  activityData : List Activity
  deploymentsData : List Deployment

/-- `loadDashboardData` of `Dashboard.js`, lines 24–40, given the outcome of
`await Promise.all([...])`: the three results, or the message of the error of the first
load that rejects.  The `catch` block only logs; the `finally` block clears `loading`. -/
def Dashboard.loadDashboardData (state : DashboardState)
    (outcome : Except JsString DashboardData) : DashboardState :=
  match outcome with
  | .ok data =>
    { stats := data.statsData
      recentActivity := data.activityData.take 5
      recentDeployments := data.deploymentsData.take 3
      loading := false }
  | .error _ => { state with loading := false }

/-- One row of the recent-deployments card: icon, badge and the `vercelUrl` of the
`View Live` link, if shown. -/
structure DeploymentRow where
  icon : Icon
  badge : Badge
  projectName : JsString
  framework : JsString
  liveLink : Option JsString
  deriving DecidableEq, Repr

/-- What the Dashboard renders: the loading spinner, or the page with the four stats
cards (the values of `totalDeployments`, `successfulDeployments`, `failedDeployments`,
`averageDeployTime`), the deployment rows and the dot colour and message of each
activity. -/
inductive DashboardRender
  | spinner
  | page (cards : List JsValue) (rows : List DeploymentRow)
      (activity : List (JsString × JsString))

/-- The class of the dot of an activity, lines 196–198. -/
def activityDot (status : JsString) : JsString :=
  if status = js "success" then js "bg-green-400"
  else if status = js "error" then js "bg-red-400"
  else js "bg-blue-400"

/-- The row of one deployment, lines 158–178; the link is shown when `vercelUrl` is
truthy. -/
def Dashboard.row (toUpperCase : JsString → JsString)
    (inheritedText : JsString → Option JsString) (deployment : Deployment) : DeploymentRow :=
  { icon := Dashboard.getStatusIcon deployment.status
    badge := Dashboard.getStatusBadge toUpperCase inheritedText deployment.status
    projectName := deployment.projectName
    framework := deployment.framework
    liveLink := deployment.vercelUrl.filter fun url => url ≠ [] }

/-- The render of the Dashboard, lines 72–212: the spinner while `loading`, else the page,
for which the four fields of `stats` are read in order.  The result is the message of the
TypeError when a read throws (`stats` is `null` or `undefined`). -/
def Dashboard.render (typeErrorMessage : JsValue → JsString → JsString)
    (toUpperCase : JsString → JsString) (inheritedText : JsString → Option JsString)
    (state : DashboardState) : Except JsString DashboardRender :=
  if state.loading then .ok .spinner
  else
    match readProp (js "totalDeployments") state.stats with
    | none => .error (typeErrorMessage state.stats (js "totalDeployments"))
    | some total =>
      match readProp (js "successfulDeployments") state.stats with
      | none => .error (typeErrorMessage state.stats (js "successfulDeployments"))
      | some successful =>
        match readProp (js "failedDeployments") state.stats with
        | none => .error (typeErrorMessage state.stats (js "failedDeployments"))
        | some failed =>
          match readProp (js "averageDeployTime") state.stats with
          | none => .error (typeErrorMessage state.stats (js "averageDeployTime"))
          | some average =>
            .ok (.page [total, successful, failed, average]
              (state.recentDeployments.map (Dashboard.row toUpperCase inheritedText))
              (state.recentActivity.map fun a => (activityDot a.status, a.message)))

/-! ## Loading the popup (`popup.js`) -/

/-- One item of the popup's recent-deployments list, lines 77–86: the values of
`projectName`, `status` and `deployTime` it is built from. -/
structure RecentItem where
  projectName : JsValue
  status : JsString
  deployTime : JsValue

/-- The content of the popup's `deployments-list` element. -/
inductive ListContent
  /-- What the popup's page has before any load. -/
  | asShipped
  /-- The single item `No recent deployments`. -/
  | noDeployments
  /-- One item for each deployment. -/
  | items (rows : List RecentItem)

/-- The item of one deployment; `none` when building it throws: the deployment is `null`
or `undefined`, or its `status` is not a string and has no `charAt`. -/
def recentItem (deployment : JsValue) : Option RecentItem :=
  match readProp (js "projectName") deployment, readProp (js "status") deployment,
    readProp (js "deployTime") deployment with
  | some projectName, some (.str status), some deployTime =>
    some { projectName := projectName, status := status, deployTime := deployTime }
  | _, _, _ => none

/-- The items of the deployments, in order; `none` when one of them throws. -/
def recentItems : List JsValue → Option (List RecentItem)
  | [] => some []
  | deployment :: rest =>
    match recentItem deployment, recentItems rest with
    | some row, some rows => some (row :: rows)
    | _, _ => none

/-- Whether `v === 0`. -/
def isZero : JsValue → Bool
  | .num (.finite m _) => m = 0
  | _ => false

/-- `updateRecentDeployments(deployments)` of `popup.js`, lines 62–87: the new content of
the list, or `none` when it throws.  A value whose `length` is `0` gives the placeholder;
an array gives its items; any other value has no `map` method. -/
def updateRecentDeployments (deployments : JsValue) : Option ListContent :=
  match readProp (js "length") deployments with
  | none => none
  | some length =>
    if isZero length then some .noDeployments
    else
      match deployments with
      | .arr items => (recentItems items).map .items
      | _ => none

/-- The parts of the popup's page that `loadDashboardData` writes: the `display` of the
`loading`, `main-content` and `error` elements, the text of the error element, the text
content given to the two counters and the content of the list. -/
structure PopupPage where
  loadingDisplay : JsString
  mainDisplay : JsString
  errorDisplay : JsString
  errorText : JsString
  totalDeployments : JsValue
  successfulDeployments : JsValue
  deploymentsList : ListContent

/-- The `catch` block of the popup's `loadDashboardData`, lines 51–58. -/
def Popup.loadFailed (page : PopupPage) : PopupPage :=
  { page with
    loadingDisplay := js "none"
    errorText := js "Failed to load data. Please check your connection."
    errorDisplay := js "block"
    mainDisplay := js "block" }

/-- `loadDashboardData` of `popup.js`, lines 18–59, given the outcomes of the two fetches
awaited jointly (stats, then deployments): the page afterwards. -/
def Popup.loadDashboardData (page : PopupPage) (statsFetch deploymentsFetch : FetchOutcome) :
    PopupPage :=
  let page := { page with
    loadingDisplay := js "block", mainDisplay := js "none", errorDisplay := js "none" }
  match statsFetch, deploymentsFetch with
  | .resolved statsResponse, .resolved deploymentsResponse =>
    if !statsResponse.ok || !deploymentsResponse.ok then Popup.loadFailed page
    else
      match statsResponse.json, deploymentsResponse.json with
      | .ok stats, .ok deployments =>
        match readProp (js "totalDeployments") stats with
        | none => Popup.loadFailed page
        | some total =>
          let page := { page with totalDeployments := total }
          match readProp (js "successfulDeployments") stats with
          | none => Popup.loadFailed page
          | some successful =>
            let page := { page with successfulDeployments := successful }
            match updateRecentDeployments deployments with
            | none => Popup.loadFailed page
            | some list =>
              { page with
                deploymentsList := list
                loadingDisplay := js "none"
                mainDisplay := js "block" }
      | _, _ => Popup.loadFailed page
  | _, _ => Popup.loadFailed page

/-- Whether a fetch resolved with a success status. -/
def fetchSucceeded : FetchOutcome → Bool
  | .resolved response => response.ok
  | .rejected _ => false

/-- The alphabet `[A-Za-z0-9 -]` in the specification's words: ASCII letters, ASCII
digits, the space character and the hyphen. -/
def inSpecAlphabet (c : Nat) : Bool :=
  isAsciiLetter c || isAsciiDigit c || c == 32 || isHyphen c

/-- A letter, a digit or a hyphen. -/
def isLetterDigitHyphen (c : Nat) : Bool :=
  isAsciiLetter c || isAsciiDigit c || isHyphen c

/-! # Theorems -/

/-! ## Strings -/

theorem isWhiteSpace_of_isLetterDigitHyphen (c : Nat) (h : isLetterDigitHyphen c = true) :
    isWhiteSpace c = false := by
  simp only [isLetterDigitHyphen, isAsciiLetter, isAsciiDigit, isHyphen, Bool.or_eq_true,
    Bool.and_eq_true, decide_eq_true_eq, beq_iff_eq] at h
  simp only [isWhiteSpace, Bool.or_eq_false_iff, Bool.and_eq_false_iff, beq_eq_false_iff_ne,
    decide_eq_false_iff_not]
  omega

theorem trim_sublist (s : JsString) : (trim s).Sublist s :=
  (List.rdropWhile_prefix isWhiteSpace _).sublist.trans (List.dropWhile_suffix isWhiteSpace).sublist

theorem trim_head?_not_whiteSpace (s : JsString) :
    (trim s).head?.all (fun c => !isWhiteSpace c) = true := by
  have hpre : trim s <+: s.dropWhile isWhiteSpace := List.rdropWhile_prefix isWhiteSpace _
  cases ht : trim s with
  | nil => rfl
  | cons c t =>
    rw [ht] at hpre
    obtain ⟨r, hr⟩ := hpre
    have hhead := List.head?_dropWhile_not isWhiteSpace s
    rw [← hr] at hhead
    simpa using hhead

theorem trim_getLast?_not_whiteSpace (s : JsString) :
    (trim s).getLast?.all (fun c => !isWhiteSpace c) = true := by
  by_cases hne : trim s = []
  · rw [hne]; rfl
  · have hlast := List.rdropWhile_last_not (p := isWhiteSpace)
      (l := s.dropWhile isWhiteSpace) hne
    rw [List.getLast?_eq_getLast _ hne]
    simpa [trim] using hlast

theorem filter_dropWhile_of_disjoint (p q : Nat → Bool) (hpq : ∀ c, p c = true → q c = false)
    (l : List Nat) : (l.dropWhile q).filter p = l.filter p := by
  induction l with
  | nil => rfl
  | cons a l ih =>
    by_cases hq : q a = true
    · have hp : p a = false := by
        cases hpa : p a with
        | false => rfl
        | true => rw [hpq a hpa] at hq; exact absurd hq (by decide)
      simp [List.dropWhile_cons, hq, hp, ih]
    · simp [List.dropWhile_cons, hq]

theorem filter_rdropWhile_of_disjoint (p q : Nat → Bool) (hpq : ∀ c, p c = true → q c = false)
    (l : List Nat) : (l.rdropWhile q).filter p = l.filter p := by
  have h := filter_dropWhile_of_disjoint p q hpq l.reverse
  rw [List.rdropWhile, List.filter_reverse, h, List.filter_reverse, List.reverse_reverse]

theorem filter_trim_of_disjoint (p : Nat → Bool) (hp : ∀ c, p c = true → isWhiteSpace c = false)
    (s : JsString) : (trim s).filter p = s.filter p := by
  rw [trim, filter_rdropWhile_of_disjoint p _ hp, filter_dropWhile_of_disjoint p _ hp]

theorem all_of_sublist {p : Nat → Bool} {l₁ l₂ : List Nat} (h : l₁.Sublist l₂)
    (hall : l₂.all p = true) : l₁.all p = true := by
  rw [List.all_eq_true] at hall ⊢
  exact fun c hc => hall c (h.subset hc)

theorem replaceDisallowed_all (s : JsString) :
    (replaceDisallowed s).all keptByCleanUpPattern = true := by
  rw [List.all_eq_true]
  intro c hc
  exact (List.mem_filter.mp hc).2

theorem cleanUpProjectName_all_kept (s : JsString) :
    (cleanUpProjectName s).all keptByCleanUpPattern = true := by
  unfold cleanUpProjectName
  simp only
  split
  · decide
  · exact all_of_sublist (trim_sublist _) (replaceDisallowed_all s)

theorem cleanUpProjectName_ne_nil (s : JsString) : cleanUpProjectName s ≠ [] := by
  unfold cleanUpProjectName
  simp only
  split
  · decide
  · assumption

/-! ## Project-name clean-up: C1, C2, C3 -/

/-- C1, as stated, fails: the page title `a<TAB>b` is returned unchanged by the clean-up
step and by both extractors, and the tab character is not in `[A-Za-z0-9 -]`. -/
theorem cleanUp_keeps_tab :
    cleanUpProjectName (js "a\tb") = js "a\tb" ∧
    (extractProjectInfo { href := js "https://x", title := [], chatTitle := some (js "a\tb") }).projectName
      = js "a\tb" ∧
    (injectedExtractor { href := js "https://x", title := [], chatTitle := some (js "a\tb") }).projectName
      = js "a\tb" ∧
    (js "a\tb").all inSpecAlphabet = false := by
  decide

/-- C1, amended: for every input string, the project name produced by the clean-up step,
and so the one produced by the content script's `extractProjectInfo` and by the popup's
injected extractor on every page, contains only ASCII letters, ASCII digits, hyphens and
whitespace characters (those matched by `\s`). -/
theorem cleanUp_alphabet (s : JsString) (page : PageContext) :
    (cleanUpProjectName s).all
      (fun c => isAsciiLetter c || isAsciiDigit c || isWhiteSpace c || isHyphen c) = true ∧
    (extractProjectInfo page).projectName.all
      (fun c => isAsciiLetter c || isAsciiDigit c || isWhiteSpace c || isHyphen c) = true ∧
    (injectedExtractor page).projectName.all
      (fun c => isAsciiLetter c || isAsciiDigit c || isWhiteSpace c || isHyphen c) = true :=
  ⟨cleanUpProjectName_all_kept s, cleanUpProjectName_all_kept _, cleanUpProjectName_all_kept _⟩

/-- C2: for every input string, if deleting the characters matched by the clean-up
pattern and trimming leaves the empty string, the sanitized project name is exactly
`'Emergent Project'`; and for every input (and every page, for both extractors) the
sanitized project name is non-empty. -/
theorem cleanUp_default_and_nonempty (s : JsString) (page : PageContext) :
    (trim (replaceDisallowed s) = [] → cleanUpProjectName s = js "Emergent Project") ∧
    cleanUpProjectName s ≠ [] ∧
    (extractProjectInfo page).projectName ≠ [] ∧
    (injectedExtractor page).projectName ≠ [] := by
  refine ⟨fun h => ?_, cleanUpProjectName_ne_nil s, cleanUpProjectName_ne_nil _,
    cleanUpProjectName_ne_nil _⟩
  unfold cleanUpProjectName
  simp only [h, if_true]
  rfl

/-- Witness of C2: `'!!'` sanitizes to the default name. -/
theorem cleanUp_default_and_nonempty_witness :
    trim (replaceDisallowed (js "!!")) = [] ∧
    cleanUpProjectName (js "!!") = js "Emergent Project" :=
  ⟨by decide,
    (cleanUp_default_and_nonempty (js "!!") { href := [], title := [], chatTitle := none }).1
      (by decide)⟩

/-- C3: for every input string that contains at least one letter, digit or hyphen, the
sanitized project name is the input with the characters matched by the clean-up pattern
deleted and then trimmed; it has no leading or trailing whitespace; its letters, digits
and hyphens are those of the input, in the same order; and it is a subsequence of the
input (nothing is inserted). -/
theorem cleanUp_of_letterDigitHyphen (s : JsString)
    (h : ∃ c ∈ s, isLetterDigitHyphen c = true) :
    cleanUpProjectName s = trim (replaceDisallowed s) ∧
    (cleanUpProjectName s).head?.all (fun c => !isWhiteSpace c) = true ∧
    (cleanUpProjectName s).getLast?.all (fun c => !isWhiteSpace c) = true ∧
    (cleanUpProjectName s).filter isLetterDigitHyphen = s.filter isLetterDigitHyphen ∧
    (cleanUpProjectName s).Sublist s := by
  have hkeep : (replaceDisallowed s).filter isLetterDigitHyphen = s.filter isLetterDigitHyphen := by
    unfold replaceDisallowed
    rw [List.filter_filter]
    apply List.filter_congr
    intro c _
    simp only [isLetterDigitHyphen, keptByCleanUpPattern]
    cases isAsciiLetter c <;> cases isAsciiDigit c <;> cases isHyphen c <;>
      cases isWhiteSpace c <;> rfl
  have hfilter : (trim (replaceDisallowed s)).filter isLetterDigitHyphen
      = s.filter isLetterDigitHyphen := by
    rw [filter_trim_of_disjoint _ isWhiteSpace_of_isLetterDigitHyphen, hkeep]
  have hne : trim (replaceDisallowed s) ≠ [] := by
    intro hnil
    rw [hnil] at hfilter
    obtain ⟨c, hc, hldh⟩ := h
    have : c ∈ s.filter isLetterDigitHyphen := List.mem_filter.mpr ⟨hc, hldh⟩
    rw [← hfilter] at this
    simp at this
  have heq : cleanUpProjectName s = trim (replaceDisallowed s) := by
    unfold cleanUpProjectName
    simp only [hne, if_false]
  refine ⟨heq, ?_, ?_, ?_, ?_⟩
  · rw [heq]
    exact trim_head?_not_whiteSpace _
  · rw [heq]
    exact trim_getLast?_not_whiteSpace _
  · rw [heq, hfilter]
  · rw [heq]
    exact (trim_sublist _).trans (List.filter_sublist _)

/-- Witness of C3: `'My App!!'` sanitizes to `'My App'`. -/
theorem cleanUp_of_letterDigitHyphen_witness :
    (∃ c ∈ js "My App!!", isLetterDigitHyphen c = true) ∧
    cleanUpProjectName (js "My App!!") = js "My App" :=
  ⟨⟨77, by decide, by decide⟩,
    (cleanUp_of_letterDigitHyphen (js "My App!!") ⟨77, by decide, by decide⟩).1.trans
      (by decide)⟩

/-! ## The Deployments filter: C4, C5, C6, C7 -/

theorem includes_iff_isInfix (s t : JsString) : includes s t = true ↔ t <:+: s := by
  unfold includes
  rw [List.any_eq_true, List.infix_iff_prefix_suffix]
  constructor
  · rintro ⟨u, hu, hpre⟩
    exact ⟨u, List.isPrefixOf_iff_prefix.mp hpre, (List.mem_tails _ _).mp hu⟩
  · rintro ⟨u, hpre, hsuf⟩
    exact ⟨u, (List.mem_tails _ _).mpr hsuf, List.isPrefixOf_iff_prefix.mpr hpre⟩

theorem filteredDeployments_eq_filter (toLowerCase : JsString → JsString)
    (D : List Deployment) (t f : JsString) :
    filteredDeployments toLowerCase D t f = D.filter (passesFilters toLowerCase t f) := by
  unfold filteredDeployments applyStatusFilter applySearchFilter
  by_cases ht : t = [] <;> by_cases hf : f = js "all"
  · simp only [ht, hf, ne_eq, not_true_eq_false, if_false]
    symm
    rw [List.filter_eq_self]
    intro r _
    simp [passesFilters]
  · simp only [ht, hf, ne_eq, not_false_eq_true, not_true_eq_false, if_true, if_false]
    apply List.filter_congr
    intro r _
    simp [passesFilters, hf]
  · simp only [ht, hf, ne_eq, not_false_eq_true, not_true_eq_false, if_true, if_false]
    apply List.filter_congr
    intro r _
    simp [passesFilters, matchesSearch, ht, hf]
  · simp only [ht, hf, ne_eq, not_false_eq_true, if_true, List.filter_filter]
    apply List.filter_congr
    intro r _
    simp [passesFilters, matchesSearch, ht, hf, Bool.and_comm]

/-- C4: for every fetched list `D`, search term `t` and status filter `f`, a record `r`
is in the filtered list of the Deployments view if and only if it is in `D`, and `t` is
empty or the lower-cased `t` is a substring of the lower-cased `projectName` or of the
lower-cased `framework`, and `f` is `'all'` or `r.status` equals `f`. -/
theorem mem_filteredDeployments_iff (toLowerCase : JsString → JsString)
    (D : List Deployment) (t f : JsString) (r : Deployment) :
    r ∈ filteredDeployments toLowerCase D t f ↔
      r ∈ D ∧
      (t = [] ∨ toLowerCase t <:+: toLowerCase r.projectName ∨
        toLowerCase t <:+: toLowerCase r.framework) ∧
      (f = js "all" ∨ r.status = f) := by
  rw [filteredDeployments_eq_filter, List.mem_filter]
  simp only [passesFilters, Bool.and_eq_true, Bool.or_eq_true, decide_eq_true_eq,
    includes_iff_isInfix, or_assoc]

/-- C5: for every list of deployments and every pair (search term, status filter),
applying the status filter and then the text filter yields the same list as applying the
text filter and then the status filter, and both equal the list the Deployments view
computes. -/
theorem filters_commute (toLowerCase : JsString → JsString) (D : List Deployment)
    (t f : JsString) :
    applySearchFilter toLowerCase t (applyStatusFilter f D)
      = applyStatusFilter f (applySearchFilter toLowerCase t D) ∧
    applyStatusFilter f (applySearchFilter toLowerCase t D)
      = filteredDeployments toLowerCase D t f := by
  refine ⟨?_, rfl⟩
  unfold applyStatusFilter applySearchFilter
  by_cases ht : t = [] <;> by_cases hf : f = js "all" <;>
    simp only [ht, hf, ne_eq, not_false_eq_true, not_true_eq_false, if_true, if_false]
  rw [List.filter_filter, List.filter_filter]
  apply List.filter_congr
  intro r _
  exact Bool.and_comm _ _

/-- C6: filtering is idempotent: filtering the already filtered list again with the same
search term and status filter returns the filtered list unchanged. -/
theorem filteredDeployments_idempotent (toLowerCase : JsString → JsString)
    (D : List Deployment) (t f : JsString) :
    filteredDeployments toLowerCase (filteredDeployments toLowerCase D t f) t f
      = filteredDeployments toLowerCase D t f := by
  rw [filteredDeployments_eq_filter, filteredDeployments_eq_filter, List.filter_filter]
  apply List.filter_congr
  intro r _
  exact Bool.and_self _

/-- C7: for every list `D` and every status `f` other than `'all'`, with an empty search
term the filtered list is exactly the records of `D` whose status equals `f`: it is `D`
with the other records removed, so an order-preserving sublist of `D` in which every
record of status `f` occurs as often as in `D` and no other record occurs. -/
theorem filteredDeployments_status_only (toLowerCase : JsString → JsString)
    (D : List Deployment) (f : JsString) (hf : f ≠ js "all") :
    filteredDeployments toLowerCase D [] f = D.filter (fun r => r.status = f) ∧
    (filteredDeployments toLowerCase D [] f).Sublist D ∧
    ∀ r : Deployment, (filteredDeployments toLowerCase D [] f).count r
      = if r.status = f then D.count r else 0 := by
  have heq : filteredDeployments toLowerCase D [] f = D.filter (fun r => r.status = f) := by
    unfold filteredDeployments applyStatusFilter applySearchFilter
    simp [hf]
  refine ⟨heq, ?_, ?_⟩
  · rw [heq]; exact List.filter_sublist _
  · intro r
    rw [heq]
    by_cases hr : r.status = f
    · rw [if_pos hr]
      exact List.count_filter (by simpa using hr)
    · rw [if_neg hr, List.count_eq_zero]
      intro hmem
      exact hr (by simpa using (List.mem_filter.mp hmem).2)

/-- Witness of C7: for records with statuses `[deployed, building, failed, failed]` and
`f = 'failed'` the result is exactly the two failed records, third before fourth. -/
theorem filteredDeployments_status_only_witness :
    js "failed" ≠ js "all" ∧
    filteredDeployments asciiToLowerCase
      [ sampleDeployment (js "dep_1") (js "deployed"),
        sampleDeployment (js "dep_2") (js "building"),
        sampleDeployment (js "dep_3") (js "failed"),
        sampleDeployment (js "dep_4") (js "failed") ] [] (js "failed")
      = [ sampleDeployment (js "dep_3") (js "failed"),
          sampleDeployment (js "dep_4") (js "failed") ] :=
  ⟨by decide,
    (filteredDeployments_status_only asciiToLowerCase _ (js "failed") (by decide)).1.trans
      (by decide)⟩

/-! ## Settings updates: C8 -/

theorem getProp_setProp_same (k : JsString) (v : JsValue) (o : JsObject) :
    getProp k (setProp k v o) = v := by
  induction o with
  | nil => simp [setProp, getProp]
  | cons p o ih =>
    obtain ⟨k', v'⟩ := p
    by_cases h : k' = k
    · simp [setProp, getProp, h]
    · simp [setProp, getProp, h, ih]

theorem getProp_setProp_ne (k k' : JsString) (v : JsValue) (o : JsObject) (hk : k' ≠ k) :
    getProp k' (setProp k v o) = getProp k' o := by
  induction o with
  | nil => simp [setProp, getProp, Ne.symm hk]
  | cons p o ih =>
    obtain ⟨k₀, v₀⟩ := p
    by_cases h : k₀ = k
    · subst h
      simp [setProp, getProp, Ne.symm hk]
    · by_cases h' : k₀ = k'
      · subst h'
        simp [setProp, getProp, h]
      · simp [setProp, getProp, h, h', ih]

theorem split_of_not_mem (sep : Nat) (s : JsString) (h : sep ∉ s) : split sep s = [s] := by
  induction s with
  | nil => rfl
  | cons c cs ih =>
    have hc : c ≠ sep := fun e => h (by simp [e])
    have hcs : sep ∉ cs := fun e => h (List.mem_cons_of_mem _ e)
    simp [split, hc, ih hcs]

theorem split_append_sep (sep : Nat) (a b : JsString) (h : sep ∉ a) :
    split sep (a ++ sep :: b) = a :: split sep b := by
  induction a with
  | nil => simp [split]
  | cons c cs ih =>
    have hc : c ≠ sep := fun e => h (by simp [e])
    have hcs : sep ∉ cs := fun e => h (List.mem_cons_of_mem _ e)
    simp [split, hc, ih hcs]

theorem includes_singleton (s : JsString) (c : Nat) : includes s [c] = true ↔ c ∈ s := by
  rw [includes_iff_isInfix]
  constructor
  · rintro ⟨a, b, rfl⟩
    simp
  · intro h
    obtain ⟨a, b, rfl⟩ := List.append_of_mem h
    exact ⟨a, b, by simp⟩

theorem updateSetting_nested (parent child : JsString) (v : JsValue) (s : JsObject)
    (hp : dot ∉ parent) (hc : dot ∉ child) :
    updateSetting (parent ++ dot :: child) v s
      = setProp parent (.obj (setProp child v (spreadProps (getProp parent s)))) s := by
  have hinc : includes (parent ++ dot :: child) [dot] = true :=
    (includes_singleton _ _).mpr (by simp)
  unfold updateSetting
  simp only [hinc, if_true, split_append_sep dot parent child hp, split_of_not_mem dot child hc]
  rfl

theorem updateSetting_flat (k : JsString) (v : JsValue) (s : JsObject) (hk : dot ∉ k) :
    updateSetting k v s = setProp k v s := by
  have hinc : includes k [dot] = false := by
    cases h : includes k [dot] with
    | false => rfl
    | true => exact absurd ((includes_singleton _ _).mp h) hk
  unfold updateSetting
  simp only [hinc]
  rfl

/-- C8, as stated, fails for a child key that contains a dot: with
`notifications = { 'a.b': false }`, `updateSetting('notifications.' + 'a.b', true)` leaves
`notifications['a.b']` at `false` and adds a property `a` instead, because only the first
two segments of `key.split('.')` are used. -/
theorem updateSetting_dotted_child :
    getProp (js "notifications")
        (updateSetting (js "notifications." ++ js "a.b") (.bool true)
          [(js "notifications", .obj [(js "a.b", .bool false)])])
      = .obj [(js "a.b", .bool false), (js "a", .bool true)] ∧
    getProp (js "a.b") [(js "a.b", .bool false), (js "a", .bool true)] = .bool false :=
  ⟨rfl, rfl⟩

/-- C8, amended: for every settings object `s` whose `notifications` field is a record
`n`, every child key `c` that contains no dot and every value `v`,
`updateSetting('notifications.' + c, v)` yields a settings object in which `notifications`
is a record whose field `c` is `v` and whose other fields equal those of `n`, and every
other top-level field equals that of `s`; and for every key `k` without a dot,
`updateSetting(k, w)` sets field `k` to `w` and leaves every other top-level field
unchanged. -/
theorem updateSetting_frame (s n : JsObject) (c k : JsString) (v w : JsValue)
    (hn : getProp (js "notifications") s = .obj n) (hc : dot ∉ c) (hk : dot ∉ k) :
    (∃ n', getProp (js "notifications") (updateSetting (js "notifications." ++ c) v s) = .obj n' ∧
      getProp c n' = v ∧ ∀ c', c' ≠ c → getProp c' n' = getProp c' n) ∧
    (∀ k', k' ≠ js "notifications" →
      getProp k' (updateSetting (js "notifications." ++ c) v s) = getProp k' s) ∧
    getProp k (updateSetting k w s) = w ∧
    (∀ k', k' ≠ k → getProp k' (updateSetting k w s) = getProp k' s) := by
  have hkey : js "notifications." ++ c = js "notifications" ++ dot :: c := by
    simp only [show js "notifications." = js "notifications" ++ [dot] from by decide,
      List.append_assoc, List.singleton_append]
  have hnested := updateSetting_nested (js "notifications") c v s (by decide) hc
  rw [hkey, hnested, hn, updateSetting_flat k w s hk]
  refine ⟨⟨setProp c v n, getProp_setProp_same _ _ _, getProp_setProp_same _ _ _, ?_⟩, ?_,
    getProp_setProp_same _ _ _, ?_⟩
  · intro c' hc'
    exact getProp_setProp_ne _ _ _ _ hc'
  · intro k' hk'
    exact getProp_setProp_ne _ _ _ _ hk'
  · intro k' hk'
    exact getProp_setProp_ne _ _ _ _ hk'

/-- Witness of C8: on `mockSettings`, `updateSetting('notifications.building', true)` sets
`notifications.building` and `updateSetting('autoDeployEnabled', false)` sets that field,
all other fields being kept. -/
theorem updateSetting_frame_witness :
    getProp (js "notifications") mockSettings
      = .obj [ (js "success", .bool true), (js "failures", .bool true),
               (js "building", .bool false) ] ∧
    dot ∉ js "building" ∧ dot ∉ js "autoDeployEnabled" ∧
    ((∃ n', getProp (js "notifications")
        (updateSetting (js "notifications." ++ js "building") (.bool true) mockSettings) = .obj n' ∧
      getProp (js "building") n' = .bool true ∧
      ∀ c', c' ≠ js "building" → getProp c' n'
        = getProp c' [ (js "success", .bool true), (js "failures", .bool true),
                       (js "building", .bool false) ]) ∧
    (∀ k', k' ≠ js "notifications" →
      getProp k' (updateSetting (js "notifications." ++ js "building") (.bool true) mockSettings)
        = getProp k' mockSettings) ∧
    getProp (js "autoDeployEnabled")
      (updateSetting (js "autoDeployEnabled") (.bool false) mockSettings) = .bool false ∧
    (∀ k', k' ≠ js "autoDeployEnabled" →
      getProp k' (updateSetting (js "autoDeployEnabled") (.bool false) mockSettings)
        = getProp k' mockSettings)) :=
  ⟨rfl, by decide, by decide,
    updateSetting_frame mockSettings _ (js "building") (js "autoDeployEnabled") (.bool true)
      (.bool false) rfl (by decide) (by decide)⟩

/-! ## Error details: C9, C10 -/

theorem jsOr_str_of_ne_nil (d : JsString) (b : JsValue) (h : d ≠ []) :
    jsOr (.str d) b = .str d := by
  simp [jsOr, truthy, h]

theorem jsOr_of_not_truthy (a b : JsValue) (h : truthy a = false) : jsOr a b = b := by
  simp [jsOr, h]

theorem not_onEmergentPage_nil : includes [] (js "app.emergent.sh/chat") = false := by
  decide

theorem popup_failed_post_shows (typeErrorMessage : JsValue → JsString → JsString)
    (render : JsValue → JsString) (originalText url : JsString) (tabs : List Tab)
    (page : Option PageContext) (status : Nat) (props : JsObject)
    (hurl : includes url (js "app.emergent.sh/chat") = true)
    (hstatus : ¬ (200 ≤ status ∧ status ≤ 299)) :
    shownErrors (Popup.handleDeploy typeErrorMessage render originalText (⟨some url⟩ :: tabs)
        page (.resolved ⟨status, .ok (.obj props)⟩))
      = [toStringWith render (jsOr (getProp (js "detail") props) (.str (js "Deployment failed")))] := by
  have hne : url ≠ [] := by
    rintro rfl
    rw [not_onEmergentPage_nil] at hurl
    exact absurd hurl (by decide)
  have hok : Response.ok ⟨status, .ok (.obj props)⟩ = false := by
    simp only [Response.ok, Bool.and_eq_false_iff, decide_eq_false_iff_not]
    omega
  simp [Popup.handleDeploy, hne, hurl, hok, readProp, shownErrors, Popup.catchBlock]

/-- C9: for a failed call through a `withErrorHandling`-wrapped method, and for a failed
creation POST in the popup's `handleDeploy`, if the server's error body is an object whose
`detail` is a non-empty string `d`, then the thrown Error's message, respectively the one
text passed to `showError`, is exactly `d`; and when the body's `detail` is absent or
falsy, the message is the underlying error's own message, else `'An error occurred'`,
respectively `'Deployment failed'`. -/
theorem detail_surfaced (α : Type) (typeErrorMessage : JsValue → JsString → JsString)
    (render : JsValue → JsString) (originalText url : JsString) (tabs : List Tab)
    (page : Option PageContext) (status : Nat) (props : JsObject) (message : JsValue)
    (d : JsString)
    (hd : getProp (js "detail") props = .str d) (hne : d ≠ [])
    (hurl : includes url (js "app.emergent.sh/chat") = true)
    (hstatus : ¬ (200 ≤ status ∧ status ≤ 299)) :
    (withErrorHandling render (.error ⟨some ⟨status, .obj props⟩, message⟩ : Except CaughtError α)
      = .error d) ∧
    shownErrors (Popup.handleDeploy typeErrorMessage render originalText (⟨some url⟩ :: tabs)
        page (.resolved ⟨status, .ok (.obj props)⟩)) = [d] ∧
    (∀ props' : JsObject, truthy (getProp (js "detail") props') = false →
      (withErrorHandling render
          (.error ⟨some ⟨status, .obj props'⟩, message⟩ : Except CaughtError α)
        = .error (toStringWith render (jsOr message (.str (js "An error occurred"))))) ∧
      shownErrors (Popup.handleDeploy typeErrorMessage render originalText (⟨some url⟩ :: tabs)
          page (.resolved ⟨status, .ok (.obj props')⟩)) = [js "Deployment failed"]) := by
  refine ⟨?_, ?_, ?_⟩
  · simp only [withErrorHandling, CaughtError.detail, readProp, hd, jsOr_str_of_ne_nil _ _ hne,
      toStringWith]
  · rw [popup_failed_post_shows _ _ _ _ _ _ _ _ hurl hstatus, hd,
      jsOr_str_of_ne_nil _ _ hne]
    rfl
  · intro props' hfalsy
    constructor
    · simp only [withErrorHandling, CaughtError.detail, readProp, jsOr_of_not_truthy _ _ hfalsy]
    · rw [popup_failed_post_shows _ _ _ _ _ _ _ _ hurl hstatus,
        jsOr_of_not_truthy _ _ hfalsy]
      rfl

/-- Witness of C9: HTTP 500 with body `{"detail": "Missing environment variable"}`
surfaces `'Missing environment variable'`, as the message of the Error thrown by the
wrapped API method and as the text the popup passes to `showError`. -/
theorem detail_surfaced_witness :
    getProp (js "detail") [(js "detail", .str (js "Missing environment variable"))]
      = .str (js "Missing environment variable") ∧
    js "Missing environment variable" ≠ [] ∧
    includes (js "https://app.emergent.sh/chat/abc") (js "app.emergent.sh/chat") = true ∧
    ¬ (200 ≤ 500 ∧ 500 ≤ 299) ∧
    (withErrorHandling (fun _ => js "[object Object]")
        (.error ⟨some ⟨500, .obj [(js "detail", .str (js "Missing environment variable"))]⟩,
          .str (js "Request failed with status code 500")⟩ : Except CaughtError Unit)
      = .error (js "Missing environment variable")) ∧
    shownErrors (Popup.handleDeploy (fun _ _ => js "TypeError") (fun _ => js "[object Object]")
        (js "Deploy Current Project") [⟨some (js "https://app.emergent.sh/chat/abc")⟩] none
        (.resolved ⟨500, .ok (.obj [(js "detail", .str (js "Missing environment variable"))])⟩))
      = [js "Missing environment variable"] :=
  have h := detail_surfaced Unit (fun _ _ => js "TypeError") (fun _ => js "[object Object]")
    (js "Deploy Current Project") (js "https://app.emergent.sh/chat/abc") [] none 500
    [(js "detail", .str (js "Missing environment variable"))]
    (.str (js "Request failed with status code 500")) (js "Missing environment variable")
    rfl (by decide) (by decide) (by decide)
  ⟨rfl, by decide, by decide, by decide, h.1, h.2.1⟩

theorem content_failed_post_shows (page : PageContext) (status : Nat)
    (json : Except JsString JsValue) (hstatus : ¬ (200 ≤ status ∧ status ≤ 299)) :
    shownNotifications (Content.handleDeploy true page (.resolved ⟨status, json⟩))
      = [(js "Error", js "Deployment failed. Please check your settings.", js "error")] := by
  have hok : Response.ok ⟨status, json⟩ = false := by
    simp only [Response.ok, Bool.and_eq_false_iff, decide_eq_false_iff_not]
    omega
  simp [Content.handleDeploy, hok, shownNotifications, Content.catchBlock]

theorem background_failed_post_reply (typeErrorMessage : JsValue → JsString → JsString)
    (render : JsValue → JsString) (data : JsValue) (stored : JsObject) (status : Nat)
    (json : Except JsString JsValue) (hstatus : ¬ (200 ≤ status ∧ status ≤ 299)) :
    (Background.onMessage typeErrorMessage render (js "deploy") data stored
        (.resolved ⟨status, json⟩)).reply
      = some (.failure (js "HTTP error! status: " ++ natToJs status)) := by
  have hok : Response.ok ⟨status, json⟩ = false := by
    simp only [Response.ok, Bool.and_eq_false_iff, decide_eq_false_iff_not]
    omega
  simp [Background.onMessage, Background.handleDeployment, hok]

/-- C10, the code at the failing input: for a creation POST answered with HTTP 500 and
body `{"detail": "Missing environment variable"}`, the content script's `handleDeploy`
shows the one notification `'Deployment failed. Please check your settings.'`, and the
background script's listener replies with the error `'HTTP error! status: 500'`; neither
is the server's detail. -/
theorem detail_not_surfaced_at_500 :
    shownNotifications (Content.handleDeploy true
        { href := js "https://app.emergent.sh/chat/abc", title := js "My App", chatTitle := none }
        (.resolved ⟨500, .ok (.obj [(js "detail", .str (js "Missing environment variable"))])⟩))
      = [(js "Error", js "Deployment failed. Please check your settings.", js "error")] ∧
    (Background.onMessage (fun _ _ => js "TypeError") (fun _ => js "[object Object]")
        (js "deploy")
        (.obj [ (js "projectName", .str (js "My App")),
                (js "emergentUrl", .str (js "https://app.emergent.sh/chat/abc")),
                (js "framework", .str (js "React")) ])
        []
        (.resolved ⟨500, .ok (.obj [(js "detail", .str (js "Missing environment variable"))])⟩)).reply
      = some (.failure (js "HTTP error! status: 500")) :=
  ⟨rfl, rfl⟩

/-! ## Status presentation: C11, C12 -/

/-- C11: for every status string, `getStatusIcon` of the Dashboard and of the Deployments
view returns one of four treatments: `'deployed'` gives the green check icon, `'building'`
the blue icon with `animate-spin`, `'failed'` the red cross icon, and every other value
(`'pending'` among them) the slate clock icon without animation; in each view the four
treatments are pairwise distinct. -/
theorem getStatusIcon_total (status : JsString) :
    (status = js "deployed" →
      (Dashboard.getStatusIcon status).component = .CheckCircle ∧
      includes (Dashboard.getStatusIcon status).className (js "text-green-500") = true ∧
      (Deployments.getStatusIcon status).component = .CheckCircle ∧
      includes (Deployments.getStatusIcon status).className (js "text-green-500") = true) ∧
    (status = js "building" →
      includes (Dashboard.getStatusIcon status).className (js "text-blue-500") = true ∧
      includes (Dashboard.getStatusIcon status).className (js "animate-spin") = true ∧
      includes (Deployments.getStatusIcon status).className (js "text-blue-500") = true ∧
      includes (Deployments.getStatusIcon status).className (js "animate-spin") = true) ∧
    (status = js "failed" →
      (Dashboard.getStatusIcon status).component = .XCircle ∧
      includes (Dashboard.getStatusIcon status).className (js "text-red-500") = true ∧
      (Deployments.getStatusIcon status).component = .XCircle ∧
      includes (Deployments.getStatusIcon status).className (js "text-red-500") = true) ∧
    (status ≠ js "deployed" → status ≠ js "building" → status ≠ js "failed" →
      Dashboard.getStatusIcon status = ⟨.Clock, js "w-4 h-4 text-slate-400"⟩ ∧
      Deployments.getStatusIcon status = ⟨.Clock, js "w-5 h-5 text-slate-400"⟩ ∧
      includes (js "w-4 h-4 text-slate-400") (js "animate-spin") = false ∧
      includes (js "w-5 h-5 text-slate-400") (js "animate-spin") = false) ∧
    Dashboard.getStatusIcon status ∈
      [ Dashboard.getStatusIcon (js "deployed"), Dashboard.getStatusIcon (js "building"),
        Dashboard.getStatusIcon (js "failed"), Dashboard.getStatusIcon (js "pending") ] ∧
    Deployments.getStatusIcon status ∈
      [ Deployments.getStatusIcon (js "deployed"), Deployments.getStatusIcon (js "building"),
        Deployments.getStatusIcon (js "failed"), Deployments.getStatusIcon (js "pending") ] ∧
    [ Dashboard.getStatusIcon (js "deployed"), Dashboard.getStatusIcon (js "building"),
      Dashboard.getStatusIcon (js "failed"), Dashboard.getStatusIcon (js "pending") ].Nodup ∧
    [ Deployments.getStatusIcon (js "deployed"), Deployments.getStatusIcon (js "building"),
      Deployments.getStatusIcon (js "failed"), Deployments.getStatusIcon (js "pending") ].Nodup := by
  refine ⟨?_, ?_, ?_, ?_, ?_, ?_, by decide, by decide⟩
  · rintro rfl; decide
  · rintro rfl; decide
  · rintro rfl; decide
  · intro h1 h2 h3
    refine ⟨?_, ?_, by decide, by decide⟩
    · simp only [Dashboard.getStatusIcon, h1, h2, h3, if_false]
    · simp only [Deployments.getStatusIcon, h1, h2, h3, if_false]
  · by_cases h1 : status = js "deployed"
    · subst h1; decide
    · by_cases h2 : status = js "building"
      · subst h2; decide
      · by_cases h3 : status = js "failed"
        · subst h3; decide
        · have : Dashboard.getStatusIcon status = Dashboard.getStatusIcon (js "pending") := by
            simp only [Dashboard.getStatusIcon, h1, h2, h3, if_false]
            decide
          rw [this]; decide
  · by_cases h1 : status = js "deployed"
    · subst h1; decide
    · by_cases h2 : status = js "building"
      · subst h2; decide
      · by_cases h3 : status = js "failed"
        · subst h3; decide
        · have : Deployments.getStatusIcon status = Deployments.getStatusIcon (js "pending") := by
            simp only [Deployments.getStatusIcon, h1, h2, h3, if_false]
            decide
          rw [this]; decide

/-- Witness of C11: the four statuses `'deployed'`, `'building'`, `'failed'` and `'pending'`
at work in the Dashboard. -/
theorem getStatusIcon_total_witness :
    js "pending" ≠ js "deployed" ∧ js "pending" ≠ js "building" ∧ js "pending" ≠ js "failed" ∧
    Dashboard.getStatusIcon (js "pending") = ⟨.Clock, js "w-4 h-4 text-slate-400"⟩ ∧
    Deployments.getStatusIcon (js "pending") = ⟨.Clock, js "w-5 h-5 text-slate-400"⟩ ∧
    (Dashboard.getStatusIcon (js "deployed")).component = .CheckCircle ∧
    includes (Deployments.getStatusIcon (js "building")).className (js "animate-spin") = true ∧
    (Deployments.getStatusIcon (js "failed")).component = .XCircle :=
  have hp := (getStatusIcon_total (js "pending")).2.2.2.1 (by decide) (by decide) (by decide)
  ⟨by decide, by decide, by decide, hp.1, hp.2.1,
    ((getStatusIcon_total (js "deployed")).1 rfl).1,
    ((getStatusIcon_total (js "building")).2.1 rfl).2.2.2,
    ((getStatusIcon_total (js "failed")).2.2.1 rfl).2.2.1⟩

theorem variantText_of_unknown (inheritedText : JsString → Option JsString)
    (variants : List (JsString × JsString)) (status : JsString)
    (hown : ownString status variants = none) (hinh : inheritedText status = none) :
    variantText inheritedText variants status = js "undefined" := by
  simp only [variantText, hown, hinh]

/-- C12, the code at the failing input: for the status `'pending'`, of which `variants` has
no entry (nor has `Object.prototype` a member of that name), `getStatusBadge` gives the
badge the class `'undefined border-0'` in the Dashboard and `'undefined border'` in the
Deployments view, no colour treatment at all; its label is `'Pending'`. -/
theorem getStatusBadge_pending :
    Dashboard.getStatusBadge asciiToUpperCase (fun _ => none) (js "pending")
      = { className := js "undefined border-0", label := js "Pending" } ∧
    Deployments.getStatusBadge asciiToUpperCase (fun _ => none) (js "pending")
      = { className := js "undefined border", label := js "Pending" } ∧
    Dashboard.getStatusBadge asciiToUpperCase (fun _ => none) (js "deployed")
      = { className := js "bg-green-100 text-green-700 border-0", label := js "Deployed" } := by
  decide

theorem getStatusBadge_unknown (toUpperCase : JsString → JsString)
    (inheritedText : JsString → Option JsString) (status : JsString)
    (h1 : status ≠ js "deployed") (h2 : status ≠ js "building") (h3 : status ≠ js "failed")
    (hinh : inheritedText status = none) :
    (Dashboard.getStatusBadge toUpperCase inheritedText status).className
      = js "undefined border-0" ∧
    (Deployments.getStatusBadge toUpperCase inheritedText status).className
      = js "undefined border" := by
  constructor
  · simp only [Dashboard.getStatusBadge]
    rw [variantText_of_unknown _ _ _ _ hinh]
    · rfl
    · simp [ownString, Ne.symm h1, Ne.symm h2, Ne.symm h3]
  · simp only [Deployments.getStatusBadge]
    rw [variantText_of_unknown _ _ _ _ hinh]
    · rfl
    · simp [ownString, Ne.symm h1, Ne.symm h2, Ne.symm h3]

/-! ## The mock settings store: C13, C14, C15 -/

theorem getProp_of_not_mem_keys (k : JsString) (o : JsObject) (h : k ∉ keys o) :
    getProp k o = .undefined := by
  induction o with
  | nil => rfl
  | cons p o ih =>
    obtain ⟨k', v'⟩ := p
    have hk : k' ≠ k := fun e => h (by simp [keys, e])
    have ho : k ∉ keys o := fun e => h (by simp only [keys, List.map_cons] at e ⊢; exact List.mem_cons_of_mem _ e)
    simp [getProp, hk, ih ho]

theorem getProp_assign_of_not_mem (k : JsString) (target source : JsObject)
    (h : k ∉ keys source) : getProp k (assign target source) = getProp k target := by
  induction source generalizing target with
  | nil => rfl
  | cons p source ih =>
    obtain ⟨k', v'⟩ := p
    have hk : k ≠ k' := fun e => h (by simp [keys, e])
    have hs : k ∉ keys source := fun e => h (by simp only [keys, List.map_cons] at e ⊢; exact List.mem_cons_of_mem _ e)
    rw [assign, ih _ hs, getProp_setProp_ne _ _ _ _ hk]

theorem getProp_assign_of_mem (k : JsString) (target source : JsObject)
    (h : k ∈ keys source) (hnodup : (keys source).Nodup) :
    getProp k (assign target source) = getProp k source := by
  induction source generalizing target with
  | nil => simp [keys] at h
  | cons p source ih =>
    obtain ⟨k', v'⟩ := p
    simp only [keys, List.map_cons, List.nodup_cons] at hnodup
    by_cases hk : k' = k
    · subst hk
      rw [assign, getProp_assign_of_not_mem _ _ _ hnodup.1, getProp_setProp_same]
      simp [getProp]
    · have hs : k ∈ keys source := by
        simp only [keys, List.map_cons, List.mem_cons] at h
        rcases h with h | h
        · exact absurd h.symm hk
        · exact h
      rw [assign, ih _ hs hnodup.2]
      simp [getProp, hk]

theorem getProp_updateSettings (n : JsObject) (hn : (keys n).Nodup) (k : JsString) :
    getProp k (mockApiCalls.updateSettings (.obj n))
      = if k ∈ keys n then getProp k n else getProp k mockSettings := by
  unfold mockApiCalls.updateSettings
  have hbase : assign [] mockSettings = mockSettings := rfl
  rw [hbase]
  simp only [spreadProps]
  split
  · next h => exact getProp_assign_of_mem _ _ _ h hn
  · next h => exact getProp_assign_of_not_mem _ _ _ h

/-- C13, as stated, fails: for the submitted object `{ autoDeployEnabled: false }` the
object returned by `updateSettings` carries `vercelApiToken` of the previous settings,
which the submitted object does not carry. -/
theorem updateSettings_keeps_old_field :
    getProp (js "vercelApiToken")
        (mockApiCalls.updateSettings (.obj [(js "autoDeployEnabled", .bool false)]))
      = .str (js "RsTPzeiivD3UfVAkgGm7sGaC") ∧
    getProp (js "vercelApiToken") [(js "autoDeployEnabled", .bool false)] = .undefined ∧
    getProp (js "autoDeployEnabled")
        (mockApiCalls.updateSettings (.obj [(js "autoDeployEnabled", .bool false)]))
      = .bool false :=
  ⟨rfl, rfl, rfl⟩

/-- C13, amended: `mockApiCalls.updateSettings` returns the shallow merge
`{ ...mockSettings, ...n }`: for every submitted settings object `n` and every key, a
field that `n` carries has the value of `n`, and a field that `n` does not carry has the
value of `mockSettings`; so when `n` carries every top-level field of `mockSettings`, the
result agrees with `n` on every field. -/
theorem updateSettings_merge (n : JsObject) (hn : (keys n).Nodup) (k : JsString) :
    (k ∈ keys n → getProp k (mockApiCalls.updateSettings (.obj n)) = getProp k n) ∧
    (k ∉ keys n →
      getProp k (mockApiCalls.updateSettings (.obj n)) = getProp k mockSettings) ∧
    ((∀ k' ∈ keys mockSettings, k' ∈ keys n) →
      getProp k (mockApiCalls.updateSettings (.obj n)) = getProp k n) := by
  have h := getProp_updateSettings n hn k
  refine ⟨fun hk => ?_, fun hk => ?_, fun hall => ?_⟩
  · rw [h, if_pos hk]
  · rw [h, if_neg hk]
  · by_cases hk : k ∈ keys n
    · rw [h, if_pos hk]
    · have hm : k ∉ keys mockSettings := fun e => hk (hall k e)
      rw [h, if_neg hk, getProp_of_not_mem_keys _ _ hm, getProp_of_not_mem_keys _ _ hk]

/-- Witness of C13: submitting `{ autoDeployEnabled: false }` returns an object with that
field `false` and with `defaultTeam` of `mockSettings`. -/
theorem updateSettings_merge_witness :
    (keys [(js "autoDeployEnabled", JsValue.bool false)]).Nodup ∧
    js "autoDeployEnabled" ∈ keys [(js "autoDeployEnabled", JsValue.bool false)] ∧
    js "defaultTeam" ∉ keys [(js "autoDeployEnabled", JsValue.bool false)] ∧
    getProp (js "autoDeployEnabled")
        (mockApiCalls.updateSettings (.obj [(js "autoDeployEnabled", .bool false)]))
      = getProp (js "autoDeployEnabled") [(js "autoDeployEnabled", .bool false)] ∧
    getProp (js "defaultTeam")
        (mockApiCalls.updateSettings (.obj [(js "autoDeployEnabled", .bool false)]))
      = getProp (js "defaultTeam") mockSettings :=
  ⟨by decide, by decide, by decide,
    (updateSettings_merge [(js "autoDeployEnabled", .bool false)] (by decide)
      (js "autoDeployEnabled")).1 (by decide),
    (updateSettings_merge [(js "autoDeployEnabled", .bool false)] (by decide)
      (js "defaultTeam")).2.1 (by decide)⟩

/-- C14, as stated, fails: after the view sets `notifications.building` to `true` on the
loaded settings and saves through `updateSettings` (which returns the object with
`building: true`), `getSettings` still returns `mockSettings`, where `building` is
`false`. -/
theorem getSettings_after_save_is_stale :
    getProp (js "notifications")
        (mockApiCalls.updateSettings
          (.obj (updateSetting (js "notifications.building") (.bool true)
            mockApiCalls.getSettings)))
      = .obj [ (js "success", .bool true), (js "failures", .bool true),
               (js "building", .bool true) ] ∧
    getProp (js "notifications") mockApiCalls.getSettings
      = .obj [ (js "success", .bool true), (js "failures", .bool true),
               (js "building", .bool false) ] :=
  ⟨rfl, rfl⟩

/-- C14, amended: after the Settings view, having loaded the settings with `getSettings`,
updates one field `c` (a key without a dot) of `notifications` to `v` and saves, the
object that `updateSettings` returns agrees with the view's settings on every field, so it
has `v` for that field and the loaded values for every other field of `notifications`;
`getSettings` however still returns `mockSettings`, in which `notifications` is unchanged:
the save is not read back. -/
theorem save_result_and_read_back (c : JsString) (v : JsValue) (hc : dot ∉ c) :
    (∀ k, getProp k (mockApiCalls.updateSettings
        (.obj (updateSetting (js "notifications." ++ c) v mockApiCalls.getSettings)))
      = getProp k (updateSetting (js "notifications." ++ c) v mockApiCalls.getSettings)) ∧
    (∃ n', getProp (js "notifications") (mockApiCalls.updateSettings
        (.obj (updateSetting (js "notifications." ++ c) v mockApiCalls.getSettings))) = .obj n' ∧
      getProp c n' = v ∧
      ∀ c', c' ≠ c → getProp c' n'
        = getProp c' [ (js "success", .bool true), (js "failures", .bool true),
                       (js "building", .bool false) ]) ∧
    getProp (js "notifications") mockApiCalls.getSettings
      = .obj [ (js "success", .bool true), (js "failures", .bool true),
               (js "building", .bool false) ] := by
  have hkey : js "notifications." ++ c = js "notifications" ++ dot :: c := by
    simp only [show js "notifications." = js "notifications" ++ [dot] from by decide,
      List.append_assoc, List.singleton_append]
  have hview : updateSetting (js "notifications." ++ c) v mockApiCalls.getSettings
      = setProp (js "notifications")
          (.obj (setProp c v [ (js "success", .bool true), (js "failures", .bool true),
                               (js "building", .bool false) ])) mockSettings := by
    rw [hkey, updateSetting_nested (js "notifications") c v _ (by decide) hc]
    rfl
  have hsaved : mockApiCalls.updateSettings
      (.obj (updateSetting (js "notifications." ++ c) v mockApiCalls.getSettings))
      = updateSetting (js "notifications." ++ c) v mockApiCalls.getSettings := by
    rw [hview]
    rfl
  refine ⟨fun k => by rw [hsaved], ?_, rfl⟩
  rw [hsaved, hview]
  refine ⟨_, getProp_setProp_same _ _ _, getProp_setProp_same _ _ _, ?_⟩
  intro c' hc'
  exact getProp_setProp_ne _ _ _ _ hc'

/-- Witness of C14: with `c = 'building'` and `v = true`. -/
theorem save_result_and_read_back_witness :
    dot ∉ js "building" ∧
    getProp (js "notifications") (mockApiCalls.updateSettings
        (.obj (updateSetting (js "notifications." ++ js "building") (.bool true)
          mockApiCalls.getSettings)))
      = getProp (js "notifications")
          (updateSetting (js "notifications." ++ js "building") (.bool true)
            mockApiCalls.getSettings) ∧
    getProp (js "notifications") mockApiCalls.getSettings
      = .obj [ (js "success", .bool true), (js "failures", .bool true),
               (js "building", .bool false) ] :=
  have h := save_result_and_read_back (js "building") (.bool true) (by decide)
  ⟨by decide, h.1 (js "notifications"), h.2.2⟩

/-- C15: for every state of the Settings view, if `updateSettings` fails during
`handleSave` then exactly one toast is raised, the error toast `'Failed to save settings'`,
the view's settings and loading flag are as before, the saving flag is `false` afterwards,
and `getSettings` still returns `mockSettings`; if it succeeds, exactly one toast is
raised, the success toast, the view's settings are as before and the saving flag is
`false` afterwards.  In both cases the saving flag is first set and then cleared. -/
theorem handleSave_all_or_nothing (view : SettingsView) (message : JsString)
    (saved : JsObject) :
    (handleSave view (.error message)).toasts
      = [⟨js "Error", js "Failed to save settings", true⟩] ∧
    (handleSave view (.error message)).view.settings = view.settings ∧
    (handleSave view (.error message)).view.loading = view.loading ∧
    (handleSave view (.error message)).view.saving = false ∧
    (handleSave view (.error message)).savingUpdates = [true, false] ∧
    mockApiCalls.getSettings = mockSettings ∧
    (handleSave view (.ok saved)).toasts
      = [⟨js "Success", js "Settings saved successfully", false⟩] ∧
    (handleSave view (.ok saved)).view.settings = view.settings ∧
    (handleSave view (.ok saved)).view.saving = false ∧
    (handleSave view (.ok saved)).savingUpdates = [true, false] :=
  ⟨rfl, rfl, rfl, rfl, rfl, rfl, rfl, rfl, rfl, rfl⟩

/-! ## The mock deployments: C16, C17, C18, C19 -/

/-- C16, as stated, fails: the record `dep_2` of `mockDeployments` has status `'building'`
and carries both a `vercelUrl` and a `deployTime`. -/
theorem building_record_has_url_and_time :
    (mockDeployments.filter fun d => d.vercelUrl ≠ none ∧ d.status ≠ js "deployed").map
        (fun d => (d.id, d.status)) = [(js "dep_2", js "building")] ∧
    (mockDeployments.filter fun d =>
        d.deployTime ≠ none ∧ d.status ≠ js "deployed" ∧ d.status ≠ js "failed").map
        (fun d => (d.id, d.status)) = [(js "dep_2", js "building")] := by
  decide

/-- C16, amended: for every deployment record in `mockDeployments`, `vercelUrl` is non-null
only if `status` is `'deployed'` or `'building'`, and `deployTime` is non-null only if
`status` is `'deployed'` or `'building'`. -/
theorem mockDeployments_url_and_time (d : Deployment) (hd : d ∈ mockDeployments) :
    (d.vercelUrl ≠ none → d.status = js "deployed" ∨ d.status = js "building") ∧
    (d.deployTime ≠ none → d.status = js "deployed" ∨ d.status = js "building") := by
  revert d
  decide

/-- Witness of C16: the building record `dep_2`. -/
theorem mockDeployments_url_and_time_witness :
    (∃ d ∈ mockDeployments, d.id = js "dep_2" ∧ d.vercelUrl ≠ none ∧ d.deployTime ≠ none ∧
      (d.status = js "deployed" ∨ d.status = js "building")) :=
  ⟨{ id := js "dep_2", projectName := js "Task Manager Pro",
     emergentUrl := js "https://app.emergent.sh/chat/project-task-manager",
     vercelUrl := some (js "https://task-manager-pro-emergent.vercel.app"),
     status := js "building", createdAt := js "2025-01-20T11:15:00Z",
     deployTime := some (js "32s"), framework := js "Next.js", error := none },
    by decide, rfl, by decide, by decide,
    (mockDeployments_url_and_time _ (by decide)).1 (by decide)⟩

/-- C17: for every deployment record in `mockDeployments`: if `status` is `'deployed'` then
`vercelUrl` is non-null, if `status` is `'failed'` then `error` is non-null, and `error` is
non-null only if `status` is `'failed'`. -/
theorem mockDeployments_status_fields (d : Deployment) (hd : d ∈ mockDeployments) :
    (d.status = js "deployed" → d.vercelUrl ≠ none) ∧
    (d.status = js "failed" → d.error ≠ none) ∧
    (d.error ≠ none → d.status = js "failed") := by
  revert d
  decide

/-- Witness of C17: the failed record `dep_3` carries its error. -/
theorem mockDeployments_status_fields_witness :
    (∃ d ∈ mockDeployments, d.id = js "dep_3" ∧ d.status = js "failed" ∧ d.error ≠ none) :=
  ⟨{ id := js "dep_3", projectName := js "E-commerce Dashboard",
     emergentUrl := js "https://app.emergent.sh/chat/project-ecommerce",
     vercelUrl := none,
     status := js "failed", createdAt := js "2025-01-20T09:45:00Z",
     deployTime := none, framework := js "React",
     error := some (js "Build failed: Missing environment variable") },
    by decide, rfl, rfl,
    (mockDeployments_status_fields _ (by decide)).2.1 rfl⟩

theorem digitChar_toNat (k : Nat) (hk : k < 10) : (Nat.digitChar k).toNat - 48 = k := by
  interval_cases k <;> rfl

theorem foldl_toDigitsCore (fuel n : Nat) (ds : List Char) (h : n < fuel) :
    ((Nat.toDigitsCore 10 fuel n ds).map Char.toNat).foldl (fun acc c => acc * 10 + (c - 48)) 0
      = (ds.map Char.toNat).foldl (fun acc c => acc * 10 + (c - 48)) n := by
  induction fuel generalizing n ds with
  | zero => omega
  | succ fuel ih =>
    rw [Nat.toDigitsCore]
    split
    · next h0 =>
      have hn : n % 10 = n := Nat.mod_eq_of_lt (by omega)
      simp only [List.map_cons, List.foldl_cons, Nat.zero_mul, Nat.zero_add]
      rw [digitChar_toNat _ (Nat.mod_lt _ (by decide)), hn]
    · next h0 =>
      rw [ih (n / 10) _ (by omega)]
      simp only [List.map_cons, List.foldl_cons]
      rw [digitChar_toNat _ (Nat.mod_lt _ (by decide))]
      congr 1
      omega

theorem decodeDecimal_natToJs (n : Nat) : decodeDecimal (natToJs n) = n := by
  have h := foldl_toDigitsCore (n + 1) n [] (Nat.lt_succ_self n)
  simpa [decodeDecimal, natToJs, Nat.repr, Nat.toDigits] using h

theorem natToJs_injective (a b : Nat) (h : natToJs a = natToJs b) : a = b := by
  rw [← decodeDecimal_natToJs a, ← decodeDecimal_natToJs b, h]

theorem getProp_id_triggerDeployment (now : Nat) (isoNow : JsString) (projectData : JsValue)
    (h : js "id" ∉ keys (spreadProps projectData)) :
    getProp (js "id") (mockApiCalls.triggerDeployment now isoNow projectData)
      = .str (js "dep_" ++ natToJs now) := by
  unfold mockApiCalls.triggerDeployment
  rw [getProp_setProp_ne _ _ _ _ (by decide), getProp_setProp_ne _ _ _ _ (by decide),
    getProp_assign_of_not_mem _ _ _ h]
  simp [getProp]

theorem getProp_status_triggerDeployment (now : Nat) (isoNow : JsString)
    (projectData : JsValue) :
    getProp (js "status") (mockApiCalls.triggerDeployment now isoNow projectData)
      = .str (js "building") := by
  unfold mockApiCalls.triggerDeployment
  rw [getProp_setProp_ne _ _ _ _ (by decide), getProp_setProp_same]

theorem id_not_mem_of_requestFields (d : JsObject) (h : ∀ k ∈ keys d, k ∈ requestFields) :
    js "id" ∉ keys d := fun hid => absurd (h _ hid) (by decide)

/-- C18, as stated, fails: two calls of `triggerDeployment` made at the same clock reading
(`Date.now()` counts milliseconds) create two records with the same id. -/
theorem same_clock_same_id :
    getProp (js "id") (mockApiCalls.triggerDeployment 1737369000000 (js "2025-01-20T10:30:00.000Z")
        (.obj [ (js "projectName", .str (js "My App")), (js "emergentUrl", .str (js "https://x")),
                (js "framework", .str (js "React")) ]))
      = .str (js "dep_1737369000000") ∧
    getProp (js "id") (mockApiCalls.triggerDeployment 1737369000000 (js "2025-01-20T10:30:00.000Z")
        (.obj [ (js "projectName", .str (js "Other App")), (js "emergentUrl", .str (js "https://y")),
                (js "framework", .str (js "Vite")) ]))
      = .str (js "dep_1737369000000") :=
  ⟨rfl, rfl⟩

/-- C18, amended: the ids of `mockDeployments` are pairwise distinct, and for every two
calls of `triggerDeployment` with request data carrying only `projectName`, `emergentUrl`
and `framework`, the two created records have different ids exactly when the clock
readings of the two calls differ. -/
theorem triggerDeployment_ids (t₁ t₂ : Nat) (iso₁ iso₂ : JsString) (d₁ d₂ : JsObject)
    (h₁ : ∀ k ∈ keys d₁, k ∈ requestFields) (h₂ : ∀ k ∈ keys d₂, k ∈ requestFields) :
    (mockDeployments.map fun d => d.id).Nodup ∧
    (getProp (js "id") (mockApiCalls.triggerDeployment t₁ iso₁ (.obj d₁))
        ≠ getProp (js "id") (mockApiCalls.triggerDeployment t₂ iso₂ (.obj d₂))
      ↔ t₁ ≠ t₂) := by
  refine ⟨by decide, ?_⟩
  rw [getProp_id_triggerDeployment t₁ iso₁ (.obj d₁) (id_not_mem_of_requestFields d₁ h₁),
    getProp_id_triggerDeployment t₂ iso₂ (.obj d₂) (id_not_mem_of_requestFields d₂ h₂)]
  constructor
  · intro hne heq
    exact hne (by rw [heq])
  · intro hne heq
    injection heq with heq
    exact hne (natToJs_injective _ _ (List.append_cancel_left heq))

/-- Witness of C18: two calls one millisecond apart. -/
theorem triggerDeployment_ids_witness :
    (∀ k ∈ keys [ (js "projectName", JsValue.str (js "My App")) ], k ∈ requestFields) ∧
    (getProp (js "id") (mockApiCalls.triggerDeployment 1737369000000 (js "a")
        (.obj [ (js "projectName", .str (js "My App")) ]))
      ≠ getProp (js "id") (mockApiCalls.triggerDeployment 1737369000001 (js "b")
        (.obj [ (js "projectName", .str (js "My App")) ]))) :=
  ⟨by decide,
    (triggerDeployment_ids 1737369000000 1737369000001 (js "a") (js "b") _ _
      (by decide) (by decide)).2.mpr (by decide)⟩

/-- C19: for every creation request carrying only `projectName`, `emergentUrl` and
`framework`, the record returned by `triggerDeployment` has a non-empty id, the status
`'building'`, which is neither `'deployed'` nor `'failed'`, and the same `projectName`,
`emergentUrl` and `framework` as the request; and for every request value whatsoever, even
an object with its own `status` field, the returned status is `'building'`. -/
theorem triggerDeployment_record (now : Nat) (isoNow : JsString) (d : JsObject)
    (anyData : JsValue) (k : JsString)
    (hkeys : ∀ k' ∈ keys d, k' ∈ requestFields) (hnodup : (keys d).Nodup)
    (hk : k ∈ requestFields) :
    (∃ id, getProp (js "id") (mockApiCalls.triggerDeployment now isoNow (.obj d)) = .str id ∧
      id ≠ []) ∧
    getProp (js "status") (mockApiCalls.triggerDeployment now isoNow (.obj d))
      = .str (js "building") ∧
    js "building" ≠ js "deployed" ∧ js "building" ≠ js "failed" ∧
    getProp k (mockApiCalls.triggerDeployment now isoNow (.obj d)) = getProp k d ∧
    getProp (js "status") (mockApiCalls.triggerDeployment now isoNow anyData)
      = .str (js "building") := by
  refine ⟨⟨_, getProp_id_triggerDeployment _ _ _ (id_not_mem_of_requestFields d hkeys), ?_⟩,
    getProp_status_triggerDeployment _ _ _, by decide, by decide, ?_,
    getProp_status_triggerDeployment _ _ _⟩
  · exact fun h => absurd (congrArg List.length h) (by simp [js, utf16Chars, utf16Char])
  · have hk1 : k ≠ js "createdAt" := by rintro rfl; exact absurd hk (by decide)
    have hk2 : k ≠ js "status" := by rintro rfl; exact absurd hk (by decide)
    have hk3 : k ≠ js "id" := by rintro rfl; exact absurd hk (by decide)
    unfold mockApiCalls.triggerDeployment
    rw [getProp_setProp_ne _ _ _ _ hk1, getProp_setProp_ne _ _ _ _ hk2]
    simp only [spreadProps]
    by_cases hmem : k ∈ keys d
    · exact getProp_assign_of_mem _ _ _ hmem hnodup
    · rw [getProp_assign_of_not_mem _ _ _ hmem, getProp_of_not_mem_keys _ _ hmem]
      simp [getProp, Ne.symm hk3]

/-- Witness of C19: the request `{ projectName: 'My App', emergentUrl: 'https://x',
framework: 'React' }` keeps its project name, and a request with `status: 'deployed'` is
returned as `'building'`. -/
theorem triggerDeployment_record_witness :
    (∀ k' ∈ keys [ (js "projectName", JsValue.str (js "My App")),
        (js "emergentUrl", JsValue.str (js "https://x")),
        (js "framework", JsValue.str (js "React")) ], k' ∈ requestFields) ∧
    (keys [ (js "projectName", JsValue.str (js "My App")),
        (js "emergentUrl", JsValue.str (js "https://x")),
        (js "framework", JsValue.str (js "React")) ]).Nodup ∧
    js "projectName" ∈ requestFields ∧
    getProp (js "projectName") (mockApiCalls.triggerDeployment 1737369000000
        (js "2025-01-20T10:30:00.000Z")
        (.obj [ (js "projectName", .str (js "My App")), (js "emergentUrl", .str (js "https://x")),
                (js "framework", .str (js "React")) ]))
      = getProp (js "projectName")
          [ (js "projectName", .str (js "My App")), (js "emergentUrl", .str (js "https://x")),
            (js "framework", .str (js "React")) ] ∧
    getProp (js "status") (mockApiCalls.triggerDeployment 1737369000000
        (js "2025-01-20T10:30:00.000Z") (.obj [ (js "status", .str (js "deployed")) ]))
      = .str (js "building") :=
  have h := triggerDeployment_record 1737369000000 (js "2025-01-20T10:30:00.000Z")
    [ (js "projectName", .str (js "My App")), (js "emergentUrl", .str (js "https://x")),
      (js "framework", .str (js "React")) ]
    (.obj [ (js "status", .str (js "deployed")) ]) (js "projectName")
    (by decide) (by decide) (by decide)
  ⟨by decide, by decide, by decide, h.2.2.2.2.1, h.2.2.2.2.2⟩

/-! ## The browser notification on submission: C20 -/

theorem createdNotifications_popup_catchBlock (originalText message : JsString) :
    createdNotifications (Popup.catchBlock originalText message) = [] := rfl

theorem response_ok_of_2xx (status : Nat) (json : Except JsString JsValue)
    (h : 200 ≤ status ∧ status ≤ 299) : Response.ok ⟨status, json⟩ = true := by
  simp [Response.ok, h.1, h.2]

theorem response_not_ok (status : Nat) (json : Except JsString JsValue)
    (h : ¬ (200 ≤ status ∧ status ≤ 299)) : Response.ok ⟨status, json⟩ = false := by
  simp only [Response.ok, Bool.and_eq_false_iff, decide_eq_false_iff_not]
  omega

theorem url_ne_nil_of_onEmergentPage (url : JsString)
    (hurl : includes url (js "app.emergent.sh/chat") = true) : url ≠ [] := by
  rintro rfl
  rw [not_onEmergentPage_nil] at hurl
  exact absurd hurl (by decide)

/-- C20, as stated, fails: with the stored settings the install handler writes, in which
`notifications.building` is `false`, a successful creation POST still makes the background
script and the popup raise their notification once. -/
theorem notification_raised_though_disabled :
    Background.getSettings
        [ (js "autoDeployEnabled", .bool true),
          (js "notifications", .obj [ (js "success", .bool true), (js "failures", .bool true),
                                      (js "building", .bool false) ]) ]
      = .obj [ (js "autoDeployEnabled", .bool true),
               (js "notifications", .obj [ (js "success", .bool true),
                 (js "failures", .bool true), (js "building", .bool false) ]) ] ∧
    createdNotifications
        (Background.onMessage (fun _ _ => js "TypeError") (fun _ => js "[object Object]")
          (js "deploy") (.obj [ (js "projectName", .str (js "My App")) ])
          [ (js "autoDeployEnabled", .bool true),
            (js "notifications", .obj [ (js "success", .bool true), (js "failures", .bool true),
                                        (js "building", .bool false) ]) ]
          (.resolved ⟨200, .ok (.obj [ (js "id", .str (js "dep_5")) ])⟩)).effects
      = [(js "Emergent Deploy", js "Deployment started for My App")] ∧
    createdNotifications
        (Popup.handleDeploy (fun _ _ => js "TypeError") (fun _ => js "[object Object]")
          (js "Deploy Current Project") [⟨some (js "https://app.emergent.sh/chat/abc")⟩]
          (some { href := js "https://app.emergent.sh/chat/abc", title := js "My App",
                  chatTitle := none })
          (.resolved ⟨200, .ok (.obj [ (js "id", .str (js "dep_5")) ])⟩))
      = [(js "Deployment Started", js "My App is being deployed to Vercel")] :=
  ⟨rfl, by decide, by decide⟩

/-- C20, amended: on a successful creation POST (a 2xx response with a JSON body) the
background script's `handleDeployment`, run by the message listener on a data object, and
the popup's `handleDeploy` raise their 'deployment started' browser notification exactly
once, whatever the stored settings are: `notifications.building` is never read.  On a
failed POST, a response with another status or no response at all, they raise no
notification. -/
theorem deployment_started_notification (typeErrorMessage : JsValue → JsString → JsString)
    (render : JsValue → JsString) (originalText url message : JsString) (tabs : List Tab)
    (page : Option PageContext) (stored data : JsObject) (status badStatus : Nat)
    (result : JsValue) (json : Except JsString JsValue)
    (hurl : includes url (js "app.emergent.sh/chat") = true)
    (hok : 200 ≤ status ∧ status ≤ 299) (hbad : ¬ (200 ≤ badStatus ∧ badStatus ≤ 299)) :
    createdNotifications
        (Background.onMessage typeErrorMessage render (js "deploy") (.obj data) stored
          (.resolved ⟨status, .ok result⟩)).effects
      = [(js "Emergent Deploy",
          js "Deployment started for " ++ toStringWith render (getProp (js "projectName") data))] ∧
    createdNotifications
        (Popup.handleDeploy typeErrorMessage render originalText (⟨some url⟩ :: tabs) page
          (.resolved ⟨status, .ok result⟩))
      = [(js "Deployment Started",
          (extractProjectInfoFromTab url page).projectName ++ js " is being deployed to Vercel")] ∧
    createdNotifications
        (Background.onMessage typeErrorMessage render (js "deploy") (.obj data) stored
          (.resolved ⟨badStatus, json⟩)).effects = [] ∧
    createdNotifications
        (Popup.handleDeploy typeErrorMessage render originalText (⟨some url⟩ :: tabs) page
          (.resolved ⟨badStatus, json⟩)) = [] ∧
    createdNotifications
        (Background.onMessage typeErrorMessage render (js "deploy") (.obj data) stored
          (.rejected message)).effects = [] ∧
    createdNotifications
        (Popup.handleDeploy typeErrorMessage render originalText (⟨some url⟩ :: tabs) page
          (.rejected message)) = [] := by
  have hne := url_ne_nil_of_onEmergentPage url hurl
  refine ⟨?_, ?_, ?_, ?_, ?_, ?_⟩
  · simp [Background.onMessage, Background.handleDeployment, response_ok_of_2xx _ _ hok,
      readProp, createdNotifications]
  · simp [Popup.handleDeploy, hne, hurl, response_ok_of_2xx _ _ hok, createdNotifications]
  · simp [Background.onMessage, Background.handleDeployment, response_not_ok _ _ hbad,
      createdNotifications]
  · simp only [Popup.handleDeploy, List.head?_cons, hne, hurl, response_not_ok _ _ hbad]
    cases json with
    | error m => simp [createdNotifications, Popup.catchBlock]
    | ok errorData =>
      cases hr : readProp (js "detail") errorData <;>
        simp [createdNotifications, Popup.catchBlock, hr]
  · simp [Background.onMessage, Background.handleDeployment, createdNotifications]
  · simp [Popup.handleDeploy, hne, hurl, createdNotifications, Popup.catchBlock]

/-- Witness of C20: a POST answered with 201 raises one notification in each script, one
answered with 500 raises none. -/
theorem deployment_started_notification_witness :
    includes (js "https://app.emergent.sh/chat/abc") (js "app.emergent.sh/chat") = true ∧
    (200 ≤ 201 ∧ 201 ≤ 299) ∧ ¬ (200 ≤ 500 ∧ 500 ≤ 299) ∧
    createdNotifications
        (Background.onMessage (fun _ _ => js "TypeError") (fun _ => js "[object Object]")
          (js "deploy") (.obj [ (js "projectName", .str (js "My App")) ]) []
          (.resolved ⟨201, .ok .null⟩)).effects
      = [(js "Emergent Deploy",
          js "Deployment started for " ++ toStringWith (fun _ => js "[object Object]")
            (getProp (js "projectName") [ (js "projectName", .str (js "My App")) ]))] ∧
    createdNotifications
        (Popup.handleDeploy (fun _ _ => js "TypeError") (fun _ => js "[object Object]")
          (js "Deploy") [⟨some (js "https://app.emergent.sh/chat/abc")⟩] none
          (.resolved ⟨500, .ok .null⟩)) = [] :=
  have h := deployment_started_notification (fun _ _ => js "TypeError")
    (fun _ => js "[object Object]") (js "Deploy") (js "https://app.emergent.sh/chat/abc")
    (js "Failed to fetch") [] none [] [ (js "projectName", .str (js "My App")) ] 201 500 .null
    (.ok .null) (by decide) (by decide) (by decide)
  ⟨by decide, by decide, by decide, h.1, h.2.2.2.1⟩


/-! ## Installation defaults and the badge: C21, C22 -/

theorem storageSet_installDefaults (storage : JsObject) :
    storageSet installDefaults storage
      = setProp (js "notifications")
          (.obj [ (js "success", .bool true), (js "failures", .bool true),
                  (js "building", .bool false) ])
          (setProp (js "autoDeployEnabled") (.bool true) storage) := rfl

/-- C21: the install handler passes the defaults `{autoDeployEnabled: true, notifications:
{success: true, failures: true, building: false}}` to `chrome.storage.sync.set` when the
install reason is `'install'`, after which storage holds them; for every other reason it
writes nothing and storage is as before.  So it writes if and only if the reason is
`'install'`. -/
theorem onInstalled_writes_defaults (reason : JsString) (storage : JsObject) :
    (reason = js "install" →
      (Background.onInstalled reason storage).writes
        = [[ (js "autoDeployEnabled", .bool true),
             (js "notifications", .obj [ (js "success", .bool true), (js "failures", .bool true),
                                         (js "building", .bool false) ]) ]] ∧
      getProp (js "autoDeployEnabled") (Background.onInstalled reason storage).storage
        = .bool true ∧
      getProp (js "notifications") (Background.onInstalled reason storage).storage
        = .obj [ (js "success", .bool true), (js "failures", .bool true),
                 (js "building", .bool false) ]) ∧
    (reason ≠ js "install" →
      (Background.onInstalled reason storage).writes = [] ∧
      (Background.onInstalled reason storage).storage = storage) ∧
    ((Background.onInstalled reason storage).writes ≠ [] ↔ reason = js "install") := by
  refine ⟨?_, ?_, ?_⟩
  · rintro rfl
    refine ⟨rfl, ?_, ?_⟩
    · show getProp _ (storageSet installDefaults storage) = _
      rw [storageSet_installDefaults, getProp_setProp_ne _ _ _ _ (by decide),
        getProp_setProp_same]
    · show getProp _ (storageSet installDefaults storage) = _
      rw [storageSet_installDefaults, getProp_setProp_same]
  · intro h
    simp [Background.onInstalled, h]
  · by_cases h : reason = js "install"
    · simp [Background.onInstalled, h]
    · simp [Background.onInstalled, h]

/-- Witness of C21: on `'install'` the stored `autoDeployEnabled: false` is replaced by the
default, on `'update'` it is kept. -/
theorem onInstalled_writes_defaults_witness :
    js "update" ≠ js "install" ∧
    getProp (js "autoDeployEnabled")
        (Background.onInstalled (js "install") [(js "autoDeployEnabled", .bool false)]).storage
      = .bool true ∧
    (Background.onInstalled (js "update") [(js "autoDeployEnabled", .bool false)]).writes = [] ∧
    (Background.onInstalled (js "update") [(js "autoDeployEnabled", .bool false)]).storage
      = [(js "autoDeployEnabled", .bool false)] :=
  have hu := (onInstalled_writes_defaults (js "update")
    [(js "autoDeployEnabled", .bool false)]).2.1 (by decide)
  ⟨by decide,
    ((onInstalled_writes_defaults (js "install")
      [(js "autoDeployEnabled", .bool false)]).1 rfl).2.1,
    hu.1, hu.2⟩

theorem onTabEvent_updated_elsewhere (badge : Option ActionBadge) (tabId : Nat)
    (status url : Option JsString) (h : onEmergentChat url = false) :
    Background.onTabEvent badge (.updated tabId status url) = badge := by
  simp [Background.onTabEvent, h]

/-- C22, the code at the failing input: the tab 1 is activated on an Emergent chat page
(badge blue) and then finishes loading `https://example.com/`; the update listener has no
branch for a page that is not Emergent, so the badge stays blue although the URL of the
active tab no longer contains `app.emergent.sh/chat`.  Likewise a tab in the background
that finishes loading an Emergent chat page turns the badge blue while the active tab is
elsewhere. -/
theorem badge_stale_after_navigation :
    Background.runTabEvents
        [ .activated 1 (some (js "https://app.emergent.sh/chat/abc")),
          .updated 1 (some (js "complete")) (some (js "https://example.com/")) ]
      = some ⟨js "", js "#4299e1"⟩ ∧
    activeTabUrl
        [ .activated 1 (some (js "https://app.emergent.sh/chat/abc")),
          .updated 1 (some (js "complete")) (some (js "https://example.com/")) ]
      = some (some (js "https://example.com/")) ∧
    includes (js "https://example.com/") (js "app.emergent.sh/chat") = false ∧
    Background.runTabEvents
        [ .activated 1 (some (js "https://example.com/")),
          .updated 2 (some (js "complete")) (some (js "https://app.emergent.sh/chat/abc")) ]
      = some ⟨js "", js "#4299e1"⟩ ∧
    activeTabUrl
        [ .activated 1 (some (js "https://example.com/")),
          .updated 2 (some (js "complete")) (some (js "https://app.emergent.sh/chat/abc")) ]
      = some (some (js "https://example.com/")) := by
  decide

theorem runTabEvents_append_activated (events : List TabEvent) (tabId : Nat)
    (url : Option JsString) :
    Background.runTabEvents (events ++ [.activated tabId url])
      = some ⟨js "", if onEmergentChat url then js "#4299e1" else js "#666666"⟩ := by
  simp only [Background.runTabEvents, List.foldl_append, List.foldl_cons, List.foldl_nil,
    Background.onTabEvent]
  split <;> rfl

/-! ## The cool-down of the submit control: C23 -/

theorem content_failed_effects (page : PageContext) (fetchOutcome : FetchOutcome)
    (h : ∀ response, fetchOutcome = .resolved response → response.ok = false) :
    ∃ message, Content.handleDeploy true page fetchOutcome
      = [ .setInnerHTML .deploying, .setStyle (js "opacity") (js "0.8"), .setDisabled true,
          .post (extractProjectInfo page).toJs ] ++ Content.catchBlock message := by
  cases fetchOutcome with
  | rejected message => exact ⟨message, by simp [Content.handleDeploy]⟩
  | resolved response =>
    exact ⟨js "HTTP error! status: " ++ natToJs response.status,
      by simp [Content.handleDeploy, h response rfl]⟩

theorem popup_failed_effects (typeErrorMessage : JsValue → JsString → JsString)
    (render : JsValue → JsString) (originalText url : JsString) (tabs : List Tab)
    (page : Option PageContext) (fetchOutcome : FetchOutcome)
    (hurl : includes url (js "app.emergent.sh/chat") = true)
    (h : ∀ response, fetchOutcome = .resolved response → response.ok = false) :
    ∃ message, Popup.handleDeploy typeErrorMessage render originalText (⟨some url⟩ :: tabs) page
        fetchOutcome
      = [ .setText (js "Deploying..."), .setDisabled true, .setStyle (js "opacity") (js "0.7"),
          .post (extractProjectInfoFromTab url page).toJs ] ++
        Popup.catchBlock originalText message := by
  have hne := url_ne_nil_of_onEmergentPage url hurl
  cases fetchOutcome with
  | rejected message => exact ⟨message, by simp [Popup.handleDeploy, hne, hurl]⟩
  | resolved response =>
    have hok := h response rfl
    cases hj : response.json with
    | error m => exact ⟨m, by simp [Popup.handleDeploy, hne, hurl, hok, hj]⟩
    | ok errorData =>
      cases hr : readProp (js "detail") errorData with
      | none =>
        exact ⟨typeErrorMessage errorData (js "detail"),
          by simp [Popup.handleDeploy, hne, hurl, hok, hj, hr]⟩
      | some detail =>
        exact ⟨toStringWith render (jsOr detail (.str (js "Deployment failed"))),
          by simp [Popup.handleDeploy, hne, hurl, hok, hj, hr]⟩

/-- C23, as stated, fails: after a creation POST answered with HTTP 500 the content
script's and the popup's `handleDeploy` leave the button enabled, with its original label,
as soon as they return, and start no timer: a failed attempt has no cool-down. -/
theorem no_cooldown_after_failure :
    (ButtonState.applyAll { text := js "", markup := .original, disabled := false }
        (Content.handleDeploy true
          { href := js "https://app.emergent.sh/chat/abc", title := js "My App", chatTitle := none }
          (.resolved ⟨500, .ok (.obj [(js "detail", .str (js "Missing environment variable"))])⟩)))
      = { text := js "", markup := .original, disabled := false } ∧
    scheduledTimers
        (Content.handleDeploy true
          { href := js "https://app.emergent.sh/chat/abc", title := js "My App", chatTitle := none }
          (.resolved ⟨500, .ok (.obj [(js "detail", .str (js "Missing environment variable"))])⟩))
      = [] ∧
    (ButtonState.applyAll { text := js "Deploy", markup := .original, disabled := false }
        (Popup.handleDeploy (fun _ _ => js "TypeError") (fun _ => js "[object Object]")
          (js "Deploy") [⟨some (js "https://app.emergent.sh/chat/abc")⟩] none
          (.resolved ⟨500, .ok (.obj [(js "detail", .str (js "Missing environment variable"))])⟩)))
      = { text := js "Deploy", markup := .original, disabled := false } ∧
    scheduledTimers
        (Popup.handleDeploy (fun _ _ => js "TypeError") (fun _ => js "[object Object]")
          (js "Deploy") [⟨some (js "https://app.emergent.sh/chat/abc")⟩] none
          (.resolved ⟨500, .ok (.obj [(js "detail", .str (js "Missing environment variable"))])⟩))
      = [] := by
  decide

/-- C23, amended: after a successful deployment attempt (a 2xx response with a JSON body)
from the content-script button or from the popup button, the button is disabled when the
handler returns, the one reset timer started has a delay of 3000 ms, and its callback
re-enables the button and restores the original label.  After a failed attempt (another
status, or no response) the button is enabled again with its original label as soon as
the handler returns, and no timer is started. -/
theorem cooldown_after_attempt (typeErrorMessage : JsValue → JsString → JsString)
    (render : JsValue → JsString) (originalText url message : JsString) (tabs : List Tab)
    (popupPage : Option PageContext) (page : PageContext) (status badStatus : Nat)
    (result : JsValue) (json : Except JsString JsValue) (b : ButtonState)
    (hurl : includes url (js "app.emergent.sh/chat") = true)
    (hok : 200 ≤ status ∧ status ≤ 299) (hbad : ¬ (200 ≤ badStatus ∧ badStatus ≤ 299)) :
    ((b.applyAll (Content.handleDeploy true page (.resolved ⟨status, .ok result⟩))).disabled = true ∧
      scheduledTimers (Content.handleDeploy true page (.resolved ⟨status, .ok result⟩))
        = [(.resetButton, 3000)] ∧
      ((b.applyAll (Content.handleDeploy true page (.resolved ⟨status, .ok result⟩))).applyAll
        Content.resetButton).disabled = false ∧
      ((b.applyAll (Content.handleDeploy true page (.resolved ⟨status, .ok result⟩))).applyAll
        Content.resetButton).markup = .original) ∧
    ((b.applyAll (Popup.handleDeploy typeErrorMessage render originalText (⟨some url⟩ :: tabs)
        popupPage (.resolved ⟨status, .ok result⟩))).disabled = true ∧
      scheduledTimers (Popup.handleDeploy typeErrorMessage render originalText (⟨some url⟩ :: tabs)
        popupPage (.resolved ⟨status, .ok result⟩))
        = [(.loadDashboardData, 1000), (.resetButton, 3000)] ∧
      ((b.applyAll (Popup.handleDeploy typeErrorMessage render originalText (⟨some url⟩ :: tabs)
        popupPage (.resolved ⟨status, .ok result⟩))).applyAll
        (Popup.resetButton originalText)).disabled = false ∧
      ((b.applyAll (Popup.handleDeploy typeErrorMessage render originalText (⟨some url⟩ :: tabs)
        popupPage (.resolved ⟨status, .ok result⟩))).applyAll
        (Popup.resetButton originalText)).text = originalText) ∧
    (∀ fetchOutcome, fetchOutcome = .resolved ⟨badStatus, json⟩ ∨ fetchOutcome = .rejected message →
      (b.applyAll (Content.handleDeploy true page fetchOutcome)).disabled = false ∧
      (b.applyAll (Content.handleDeploy true page fetchOutcome)).markup = .original ∧
      scheduledTimers (Content.handleDeploy true page fetchOutcome) = [] ∧
      (b.applyAll (Popup.handleDeploy typeErrorMessage render originalText (⟨some url⟩ :: tabs)
        popupPage fetchOutcome)).disabled = false ∧
      (b.applyAll (Popup.handleDeploy typeErrorMessage render originalText (⟨some url⟩ :: tabs)
        popupPage fetchOutcome)).text = originalText ∧
      scheduledTimers (Popup.handleDeploy typeErrorMessage render originalText (⟨some url⟩ :: tabs)
        popupPage fetchOutcome) = []) := by
  have hne := url_ne_nil_of_onEmergentPage url hurl
  refine ⟨?_, ?_, ?_⟩
  · simp [Content.handleDeploy, response_ok_of_2xx _ _ hok, ButtonState.applyAll,
      ButtonState.apply, scheduledTimers, Content.resetButton]
  · simp [Popup.handleDeploy, hne, hurl, response_ok_of_2xx _ _ hok, ButtonState.applyAll,
      ButtonState.apply, scheduledTimers, Popup.resetButton]
  · intro fetchOutcome hf
    have hfail : ∀ response, fetchOutcome = .resolved response → response.ok = false := by
      intro response hr
      rcases hf with hf | hf
      · rw [hf] at hr
        injection hr with hr
        rw [← hr]
        exact response_not_ok _ _ hbad
      · rw [hf] at hr
        cases hr
    obtain ⟨m₁, h₁⟩ := content_failed_effects page fetchOutcome hfail
    obtain ⟨m₂, h₂⟩ := popup_failed_effects typeErrorMessage render originalText url tabs
      popupPage fetchOutcome hurl hfail
    rw [h₁, h₂]
    simp [ButtonState.applyAll, ButtonState.apply, scheduledTimers, Content.catchBlock,
      Popup.catchBlock]

/-- Witness of C23: a POST answered with 201 leaves the popup's button disabled with a
3000 ms reset timer; one answered with 500 leaves it enabled. -/
theorem cooldown_after_attempt_witness :
    includes (js "https://app.emergent.sh/chat/abc") (js "app.emergent.sh/chat") = true ∧
    (200 ≤ 201 ∧ 201 ≤ 299) ∧ ¬ (200 ≤ 500 ∧ 500 ≤ 299) ∧
    (ButtonState.applyAll { text := js "Deploy", markup := .original, disabled := false }
        (Popup.handleDeploy (fun _ _ => js "TypeError") (fun _ => js "[object Object]")
          (js "Deploy") [⟨some (js "https://app.emergent.sh/chat/abc")⟩] none
          (.resolved ⟨201, .ok .null⟩))).disabled = true ∧
    (ButtonState.applyAll { text := js "Deploy", markup := .original, disabled := false }
        (Popup.handleDeploy (fun _ _ => js "TypeError") (fun _ => js "[object Object]")
          (js "Deploy") [⟨some (js "https://app.emergent.sh/chat/abc")⟩] none
          (.resolved ⟨500, .ok .null⟩))).disabled = false :=
  have h := cooldown_after_attempt (fun _ _ => js "TypeError") (fun _ => js "[object Object]")
    (js "Deploy") (js "https://app.emergent.sh/chat/abc") (js "Failed to fetch") [] none
    { href := js "https://app.emergent.sh/chat/abc", title := js "My App", chatTitle := none }
    201 500 .null (.ok .null) { text := js "Deploy", markup := .original, disabled := false }
    (by decide) (by decide) (by decide)
  ⟨by decide, by decide, by decide, h.2.1.1, (h.2.2 _ (Or.inl rfl)).2.2.2.1⟩

/-! ## Re-deriving the filtered list: C24 -/

theorem filterEffect_fields (toLowerCase : JsString → JsString) (v : DeploymentsView) :
    (Deployments.filterEffect toLowerCase v).deployments = v.deployments ∧
    (Deployments.filterEffect toLowerCase v).searchTerm = v.searchTerm ∧
    (Deployments.filterEffect toLowerCase v).statusFilter = v.statusFilter ∧
    (Deployments.filterEffect toLowerCase v).filteredDeployments
      = filteredDeployments toLowerCase v.deployments v.searchTerm v.statusFilter :=
  ⟨rfl, rfl, rfl, rfl⟩

theorem step_filtered (toLowerCase : JsString → JsString) (v : DeploymentsView)
    (e : DeploymentsEvent) :
    (Deployments.step toLowerCase v e).filteredDeployments
      = filteredDeployments toLowerCase (Deployments.step toLowerCase v e).deployments
          (Deployments.step toLowerCase v e).searchTerm
          (Deployments.step toLowerCase v e).statusFilter := by
  cases e <;> rfl

theorem run_filtered (toLowerCase : JsString → JsString) (v : DeploymentsView)
    (events : List DeploymentsEvent)
    (hv : v.filteredDeployments
      = filteredDeployments toLowerCase v.deployments v.searchTerm v.statusFilter) :
    (Deployments.run toLowerCase v events).filteredDeployments
      = filteredDeployments toLowerCase (Deployments.run toLowerCase v events).deployments
          (Deployments.run toLowerCase v events).searchTerm
          (Deployments.run toLowerCase v events).statusFilter := by
  induction events generalizing v with
  | nil => exact hv
  | cons e events ih =>
    exact ih (Deployments.step toLowerCase v e) (step_filtered toLowerCase v e)

theorem filteredDeployments_no_filter (toLowerCase : JsString → JsString)
    (D : List Deployment) : filteredDeployments toLowerCase D (js "") (js "all") = D := by
  simp [filteredDeployments, applySearchFilter, applyStatusFilter, js, utf16Chars]

/-- C24: the filtered list of the Deployments view is re-derived from the full fetched
list.  For every fetched list `D`, with an empty search term and status filter `'all'` the
filtered list equals `D`; for every state of the view and all filter pairs `(t₁, f₁)` and
`(t₂, f₂)`, the list shown after setting the filters to `(t₁, f₁)` and then to `(t₂, f₂)`
is the result of filtering the fetched list by `(t₂, f₂)` alone; and after every sequence
of state changes from the initial state, the list shown is the fetched list filtered by
the current search term and status filter. -/
theorem filtered_rederived (toLowerCase : JsString → JsString) (D : List Deployment)
    (v : DeploymentsView) (t₁ f₁ t₂ f₂ : JsString) (events : List DeploymentsEvent) :
    filteredDeployments toLowerCase D (js "") (js "all") = D ∧
    (Deployments.step toLowerCase Deployments.initial (.loaded D)).filteredDeployments = D ∧
    (Deployments.run toLowerCase v
        [ .setSearchTerm t₁, .setStatusFilter f₁, .setSearchTerm t₂,
          .setStatusFilter f₂ ]).filteredDeployments
      = filteredDeployments toLowerCase v.deployments t₂ f₂ ∧
    (Deployments.run toLowerCase Deployments.initial events).filteredDeployments
      = filteredDeployments toLowerCase
          (Deployments.run toLowerCase Deployments.initial events).deployments
          (Deployments.run toLowerCase Deployments.initial events).searchTerm
          (Deployments.run toLowerCase Deployments.initial events).statusFilter := by
  refine ⟨filteredDeployments_no_filter toLowerCase D, ?_, rfl, ?_⟩
  · exact filteredDeployments_no_filter toLowerCase D
  · exact run_filtered toLowerCase Deployments.initial events rfl

/-! ## The Dashboard: C25, C27 -/

theorem render_after_failed_load (typeErrorMessage : JsValue → JsString → JsString)
    (toUpperCase : JsString → JsString) (inheritedText : JsString → Option JsString)
    (message : JsString) :
    (Dashboard.loadDashboardData Dashboard.initial (.error message)).loading = false ∧
    Dashboard.render typeErrorMessage toUpperCase inheritedText
        (Dashboard.loadDashboardData Dashboard.initial (.error message))
      = .error (typeErrorMessage .null (js "totalDeployments")) :=
  ⟨rfl, rfl⟩

/-- C25, the code at the failing input: when one of the three joint loads rejects, the
Dashboard leaves its loading state with `stats` still `null`, and its next render reads
`stats.totalDeployments`, which throws a TypeError instead of completing. -/
theorem dashboard_render_throws_after_failed_load :
    (Dashboard.loadDashboardData Dashboard.initial (.error (js "Network Error"))).loading
      = false ∧
    (match (Dashboard.loadDashboardData Dashboard.initial (.error (js "Network Error"))).stats with
      | .null => true
      | _ => false) = true ∧
    (match Dashboard.render
        (fun _ k => js "Cannot read properties of null (reading '" ++ k ++ js "')")
        asciiToUpperCase (fun _ => none)
        (Dashboard.loadDashboardData Dashboard.initial (.error (js "Network Error"))) with
      | .error message => message
      | .ok _ => js "")
      = js "Cannot read properties of null (reading 'totalDeployments')" := by
  decide

/-- C27: for every fetched deployments list `L`, the Dashboard's recent-deployments list is
the first 3 records of `L` in order: a prefix of `L` with at most 3 records, and all of
`L` when `L` has at most 3; likewise the recent-activity list is the first 5 fetched
events. -/
theorem dashboard_recent_lists (state : DashboardState) (data : DashboardData) :
    (Dashboard.loadDashboardData state (.ok data)).recentDeployments
      = data.deploymentsData.take 3 ∧
    (Dashboard.loadDashboardData state (.ok data)).recentDeployments <+: data.deploymentsData ∧
    (Dashboard.loadDashboardData state (.ok data)).recentDeployments.length ≤ 3 ∧
    (data.deploymentsData.length ≤ 3 →
      (Dashboard.loadDashboardData state (.ok data)).recentDeployments = data.deploymentsData) ∧
    (Dashboard.loadDashboardData state (.ok data)).recentActivity = data.activityData.take 5 ∧
    (Dashboard.loadDashboardData state (.ok data)).recentActivity <+: data.activityData ∧
    (Dashboard.loadDashboardData state (.ok data)).recentActivity.length ≤ 5 ∧
    (data.activityData.length ≤ 5 →
      (Dashboard.loadDashboardData state (.ok data)).recentActivity = data.activityData) := by
  refine ⟨rfl, List.take_prefix _ _, ?_, fun h => List.take_of_length_le h, rfl,
    List.take_prefix _ _, ?_, fun h => List.take_of_length_le h⟩
  · exact (List.length_take_le _ _)
  · exact (List.length_take_le _ _)

/-- Witness of C27: of the four records of `mockDeployments` the Dashboard shows the first
three, and a list of two records is shown whole. -/
theorem dashboard_recent_lists_witness :
    (Dashboard.loadDashboardData Dashboard.initial
        (.ok { statsData := .null, activityData := [], deploymentsData := mockDeployments })
      ).recentDeployments.map (fun d => d.id) = [js "dep_1", js "dep_2", js "dep_3"] ∧
    (mockDeployments.take 2).length ≤ 3 ∧
    (Dashboard.loadDashboardData Dashboard.initial
        (.ok { statsData := .null, activityData := [],
               deploymentsData := mockDeployments.take 2 })).recentDeployments
      = mockDeployments.take 2 :=
  ⟨by rw [(dashboard_recent_lists Dashboard.initial
        { statsData := .null, activityData := [], deploymentsData := mockDeployments }).1]
      decide,
    by decide,
    (dashboard_recent_lists Dashboard.initial
      { statsData := .null, activityData := [],
        deploymentsData := mockDeployments.take 2 }).2.2.2.1 (by decide)⟩

/-! ## Loading the popup: C26 -/

theorem loadFailed_fields (page : PopupPage) :
    (Popup.loadFailed page).loadingDisplay = js "none" ∧
    (Popup.loadFailed page).errorDisplay = js "block" ∧
    (Popup.loadFailed page).errorText
      = js "Failed to load data. Please check your connection." ∧
    (Popup.loadFailed page).mainDisplay = js "block" :=
  ⟨rfl, rfl, rfl, rfl⟩

theorem popup_load_loadingDisplay (page : PopupPage) (statsFetch deploymentsFetch : FetchOutcome) :
    (Popup.loadDashboardData page statsFetch deploymentsFetch).loadingDisplay = js "none" := by
  unfold Popup.loadDashboardData
  simp only
  repeat' split
  all_goals rfl

theorem popup_load_of_failed_fetch (page : PopupPage) (statsFetch deploymentsFetch : FetchOutcome)
    (h : fetchSucceeded statsFetch = false ∨ fetchSucceeded deploymentsFetch = false) :
    Popup.loadDashboardData page statsFetch deploymentsFetch
      = Popup.loadFailed { page with
          loadingDisplay := js "block", mainDisplay := js "none", errorDisplay := js "none" } := by
  unfold Popup.loadDashboardData
  cases statsFetch with
  | rejected m => rfl
  | resolved r₁ =>
    cases deploymentsFetch with
    | rejected m => rfl
    | resolved r₂ =>
      simp only [fetchSucceeded] at h
      have : (!r₁.ok || !r₂.ok) = true := by
        rcases h with h | h <;> simp [h]
      simp only [this, if_true]

theorem popup_load_of_error_hidden (page : PopupPage) (statsFetch deploymentsFetch : FetchOutcome)
    (h : (Popup.loadDashboardData page statsFetch deploymentsFetch).errorDisplay = js "none") :
    ∃ r₁ r₂ stats deployments,
      statsFetch = .resolved r₁ ∧ deploymentsFetch = .resolved r₂ ∧
      r₁.ok = true ∧ r₂.ok = true ∧ r₁.json = .ok stats ∧ r₂.json = .ok deployments ∧
      readProp (js "totalDeployments") stats
        = some (Popup.loadDashboardData page statsFetch deploymentsFetch).totalDeployments ∧
      readProp (js "successfulDeployments") stats
        = some (Popup.loadDashboardData page statsFetch deploymentsFetch).successfulDeployments ∧
      updateRecentDeployments deployments
        = some (Popup.loadDashboardData page statsFetch deploymentsFetch).deploymentsList ∧
      (Popup.loadDashboardData page statsFetch deploymentsFetch).mainDisplay = js "block" := by
  have hblock : js "block" ≠ js "none" := by decide
  cases statsFetch with
  | rejected m => exact absurd h hblock
  | resolved r₁ =>
    cases deploymentsFetch with
    | rejected m => exact absurd h hblock
    | resolved r₂ =>
      by_cases hok : (!r₁.ok || !r₂.ok) = true
      · simp only [Popup.loadDashboardData, hok, if_true] at h
        exact absurd h hblock
      · have hok₁ : r₁.ok = true := by
          cases h₁ : r₁.ok <;> simp [h₁] at hok ⊢
        have hok₂ : r₂.ok = true := by
          cases h₂ : r₂.ok <;> simp [h₂] at hok ⊢
        cases hj₁ : r₁.json with
        | error m =>
          simp only [Popup.loadDashboardData, hok, hj₁] at h
          exact absurd h hblock
        | ok stats =>
          cases hj₂ : r₂.json with
          | error m =>
            simp only [Popup.loadDashboardData, hok, hj₁, hj₂] at h
            exact absurd h hblock
          | ok deployments =>
            cases ht : readProp (js "totalDeployments") stats with
            | none =>
              simp only [Popup.loadDashboardData, hok, hj₁, hj₂, ht] at h
              exact absurd h hblock
            | some total =>
              cases hs : readProp (js "successfulDeployments") stats with
              | none =>
                simp only [Popup.loadDashboardData, hok, hj₁, hj₂, ht, hs] at h
                exact absurd h hblock
              | some successful =>
                cases hu : updateRecentDeployments deployments with
                | none =>
                  simp only [Popup.loadDashboardData, hok, hj₁, hj₂, ht, hs, hu] at h
                  exact absurd h hblock
                | some list =>
                  refine ⟨r₁, r₂, stats, deployments, rfl, rfl, hok₁, hok₂, hj₁, hj₂,
                    ?_, ?_, ?_, ?_⟩ <;>
                    simp only [Popup.loadDashboardData, hok, hj₁, hj₂, ht, hs, hu]
                  all_goals rfl

/-- C26: the popup's `loadDashboardData` ends with the error hidden (the loaded state,
with the loading indicator hidden, the main content shown, both counters set from the
stats response and the list built from the deployments response) only if both fetches
resolved with a success status; it ends in the error state (loading indicator hidden,
error text `'Failed to load data. Please check your connection.'` shown) if either fetch
rejects or returns a non-success status; and in every outcome the loading indicator is
hidden at the end. -/
theorem popup_load_states (page : PopupPage) (statsFetch deploymentsFetch : FetchOutcome) :
    ((Popup.loadDashboardData page statsFetch deploymentsFetch).errorDisplay = js "none" →
      fetchSucceeded statsFetch = true ∧ fetchSucceeded deploymentsFetch = true ∧
      (Popup.loadDashboardData page statsFetch deploymentsFetch).mainDisplay = js "block" ∧
      ∃ r₁ r₂ stats deployments,
        statsFetch = .resolved r₁ ∧ deploymentsFetch = .resolved r₂ ∧
        r₁.json = .ok stats ∧ r₂.json = .ok deployments ∧
        readProp (js "totalDeployments") stats
          = some (Popup.loadDashboardData page statsFetch deploymentsFetch).totalDeployments ∧
        readProp (js "successfulDeployments") stats
          = some (Popup.loadDashboardData page statsFetch deploymentsFetch).successfulDeployments ∧
        updateRecentDeployments deployments
          = some (Popup.loadDashboardData page statsFetch deploymentsFetch).deploymentsList) ∧
    (fetchSucceeded statsFetch = false ∨ fetchSucceeded deploymentsFetch = false →
      (Popup.loadDashboardData page statsFetch deploymentsFetch).errorDisplay = js "block" ∧
      (Popup.loadDashboardData page statsFetch deploymentsFetch).errorText
        = js "Failed to load data. Please check your connection.") ∧
    (Popup.loadDashboardData page statsFetch deploymentsFetch).loadingDisplay = js "none" := by
  refine ⟨fun h => ?_, fun h => ?_, popup_load_loadingDisplay page statsFetch deploymentsFetch⟩
  · obtain ⟨r₁, r₂, stats, deployments, h₁, h₂, hok₁, hok₂, hj₁, hj₂, ht, hs, hu, hm⟩ :=
      popup_load_of_error_hidden page statsFetch deploymentsFetch h
    exact ⟨by rw [h₁]; exact hok₁, by rw [h₂]; exact hok₂, hm,
      r₁, r₂, stats, deployments, h₁, h₂, hj₁, hj₂, ht, hs, hu⟩
  · rw [popup_load_of_failed_fetch page statsFetch deploymentsFetch h]
    exact ⟨rfl, rfl⟩

/-- Witness of C26: a stats fetch answered with 500 ends in the error state; two fetches
answered with 200 and JSON bodies end in the loaded state. -/
theorem popup_load_states_witness :
    fetchSucceeded (.resolved ⟨500, .ok .null⟩) = false ∧
    (Popup.loadDashboardData
        { loadingDisplay := js "block", mainDisplay := js "none", errorDisplay := js "none",
          errorText := js "", totalDeployments := .str (js "0"),
          successfulDeployments := .str (js "0"), deploymentsList := .asShipped }
        (.resolved ⟨500, .ok .null⟩)
        (.resolved ⟨200, .ok (.arr [])⟩)).errorText
      = js "Failed to load data. Please check your connection." ∧
    (Popup.loadDashboardData
        { loadingDisplay := js "block", mainDisplay := js "none", errorDisplay := js "none",
          errorText := js "", totalDeployments := .str (js "0"),
          successfulDeployments := .str (js "0"), deploymentsList := .asShipped }
        (.resolved ⟨200, .ok (.obj [ (js "totalDeployments", .num (.finite 24 0)),
                                      (js "successfulDeployments", .num (.finite 20 0)) ])⟩)
        (.resolved ⟨200, .ok (.arr [])⟩)).errorDisplay = js "none" ∧
    fetchSucceeded
        (.resolved ⟨200, .ok (.obj [ (js "totalDeployments", .num (.finite 24 0)),
                                      (js "successfulDeployments", .num (.finite 20 0)) ])⟩)
      = true :=
  have hloaded : (Popup.loadDashboardData
        { loadingDisplay := js "block", mainDisplay := js "none", errorDisplay := js "none",
          errorText := js "", totalDeployments := .str (js "0"),
          successfulDeployments := .str (js "0"), deploymentsList := .asShipped }
        (.resolved ⟨200, .ok (.obj [ (js "totalDeployments", .num (.finite 24 0)),
                                      (js "successfulDeployments", .num (.finite 20 0)) ])⟩)
        (.resolved ⟨200, .ok (.arr [])⟩)).errorDisplay = js "none" := rfl
  ⟨rfl,
    ((popup_load_states _ (.resolved ⟨500, .ok .null⟩) (.resolved ⟨200, .ok (.arr [])⟩)).2.1
      (Or.inl rfl)).2,
    hloaded,
    ((popup_load_states _ _ _).1 hloaded).1⟩

/-! ## The extractors and the stored settings: C28, C29, C30 -/

theorem trim_eq_self (s : JsString)
    (hhead : s.head?.all (fun c => !isWhiteSpace c) = true)
    (hlast : s.getLast?.all (fun c => !isWhiteSpace c) = true) : trim s = s := by
  have hdrop : s.dropWhile isWhiteSpace = s := by
    cases s with
    | nil => rfl
    | cons c t =>
      have hc : isWhiteSpace c = false := by simpa using hhead
      simp [List.dropWhile_cons, hc]
  rw [trim, hdrop, List.rdropWhile_eq_self_iff]
  intro hl
  rw [List.getLast?_eq_getLast _ hl] at hlast
  simpa using hlast

theorem trim_trim (s : JsString) : trim (trim s) = trim s :=
  trim_eq_self _ (trim_head?_not_whiteSpace s) (trim_getLast?_not_whiteSpace s)

theorem cleanUpProjectName_trimmed (s : JsString) :
    (cleanUpProjectName s).head?.all (fun c => !isWhiteSpace c) = true ∧
    (cleanUpProjectName s).getLast?.all (fun c => !isWhiteSpace c) = true := by
  unfold cleanUpProjectName
  simp only
  split
  · exact ⟨by decide, by decide⟩
  · exact ⟨trim_head?_not_whiteSpace _, trim_getLast?_not_whiteSpace _⟩

theorem cleanUpProjectName_eq_self (r : JsString) (hkept : replaceDisallowed r = r)
    (htrim : trim r = r) (hne : r ≠ []) : cleanUpProjectName r = r := by
  unfold cleanUpProjectName
  simp only [hkept, htrim, hne, if_false]

theorem cleanUpProjectName_idem (s : JsString) :
    cleanUpProjectName (cleanUpProjectName s) = cleanUpProjectName s := by
  have hkept : replaceDisallowed (cleanUpProjectName s) = cleanUpProjectName s := by
    unfold replaceDisallowed
    rw [List.filter_eq_self]
    exact List.all_eq_true.mp (cleanUpProjectName_all_kept s)
  have htrim : trim (cleanUpProjectName s) = cleanUpProjectName s :=
    trim_eq_self _ (cleanUpProjectName_trimmed s).1 (cleanUpProjectName_trimmed s).2
  exact cleanUpProjectName_eq_self _ hkept htrim (cleanUpProjectName_ne_nil s)

/-- C28: project-name sanitization is idempotent and its result is trimmed: for every
input string, sanitizing the sanitized name again returns it unchanged, the sanitized name
has no leading or trailing whitespace (trimming it changes nothing), and the default
`'Emergent Project'` is a fixed point. -/
theorem cleanUp_idempotent (s : JsString) :
    cleanUpProjectName (cleanUpProjectName s) = cleanUpProjectName s ∧
    (cleanUpProjectName s).head?.all (fun c => !isWhiteSpace c) = true ∧
    (cleanUpProjectName s).getLast?.all (fun c => !isWhiteSpace c) = true ∧
    trim (cleanUpProjectName s) = cleanUpProjectName s ∧
    cleanUpProjectName (js "Emergent Project") = js "Emergent Project" :=
  ⟨cleanUpProjectName_idem s, (cleanUpProjectName_trimmed s).1, (cleanUpProjectName_trimmed s).2,
    trim_eq_self _ (cleanUpProjectName_trimmed s).1 (cleanUpProjectName_trimmed s).2,
    by decide⟩

/-- C29: for every page whose chat-title element exists and has non-blank text, the
content script's `extractProjectInfo` and the popup's injected extractor return the same
object: the same `projectName`, the page URL as `emergentUrl` and the framework `'React'`;
and neither result depends on the document title. -/
theorem extractors_agree (page : PageContext) (text title : JsString)
    (hchat : page.chatTitle = some text) (hblank : trim text ≠ []) :
    extractProjectInfo page = injectedExtractor page ∧
    (extractProjectInfo page).projectName = cleanUpProjectName (trim text) ∧
    (extractProjectInfo page).emergentUrl = page.href ∧
    (injectedExtractor page).emergentUrl = page.href ∧
    (extractProjectInfo page).framework = js "React" ∧
    (injectedExtractor page).framework = js "React" ∧
    extractProjectInfo { page with title := title } = extractProjectInfo page ∧
    injectedExtractor { page with title := title } = injectedExtractor page := by
  simp [extractProjectInfo, injectedExtractor, hchat, hblank, strOr]

/-- Witness of C29: a page with the heading `'My App!!'`. -/
theorem extractors_agree_witness :
    trim (js "My App!!") ≠ [] ∧
    extractProjectInfo
        { href := js "https://app.emergent.sh/chat/abc", title := js "Emergent",
          chatTitle := some (js "My App!!") }
      = injectedExtractor
        { href := js "https://app.emergent.sh/chat/abc", title := js "Emergent",
          chatTitle := some (js "My App!!") } :=
  ⟨by decide,
    (extractors_agree
      { href := js "https://app.emergent.sh/chat/abc", title := js "Emergent",
        chatTitle := some (js "My App!!") } (js "My App!!") (js "") rfl (by decide)).1⟩

theorem nullish_of_present (v d : JsValue) (h₁ : v ≠ .undefined) (h₂ : v ≠ .null) :
    nullish v d = v := by
  cases v <;> simp_all [nullish]

theorem readProp_getSettings (result : JsObject) :
    readProp (js "autoDeployEnabled") (Background.getSettings result)
      = some (nullish (getProp (js "autoDeployEnabled") result) (.bool true)) ∧
    readProp (js "notifications") (Background.getSettings result)
      = some (nullish (getProp (js "notifications") result)
          (.obj [ (js "success", .bool true), (js "failures", .bool true),
                  (js "building", .bool false) ])) :=
  ⟨rfl, rfl⟩

/-- C30: the background script's `getSettings` returns the stored `autoDeployEnabled` and
the stored `notifications` unchanged whenever the stored value is neither `undefined` nor
`null` (so a stored `false` stays `false`), and returns `true`, respectively
`{success: true, failures: true, building: false}`, when it is `undefined` or `null`; on an
empty storage it returns exactly the defaults the install handler writes. -/
theorem getSettings_stored_or_default (result : JsObject) :
    (getProp (js "autoDeployEnabled") result ≠ .undefined →
      getProp (js "autoDeployEnabled") result ≠ .null →
      readProp (js "autoDeployEnabled") (Background.getSettings result)
        = some (getProp (js "autoDeployEnabled") result)) ∧
    (getProp (js "autoDeployEnabled") result = .undefined ∨
      getProp (js "autoDeployEnabled") result = .null →
      readProp (js "autoDeployEnabled") (Background.getSettings result) = some (.bool true)) ∧
    (getProp (js "notifications") result ≠ .undefined →
      getProp (js "notifications") result ≠ .null →
      readProp (js "notifications") (Background.getSettings result)
        = some (getProp (js "notifications") result)) ∧
    (getProp (js "notifications") result = .undefined ∨
      getProp (js "notifications") result = .null →
      readProp (js "notifications") (Background.getSettings result)
        = some (.obj [ (js "success", .bool true), (js "failures", .bool true),
                       (js "building", .bool false) ])) ∧
    Background.getSettings [] = .obj installDefaults ∧
    Background.getSettings (Background.onInstalled (js "install") []).storage
      = .obj installDefaults := by
  refine ⟨fun h₁ h₂ => ?_, fun h => ?_, fun h₁ h₂ => ?_, fun h => ?_, rfl, rfl⟩
  · rw [(readProp_getSettings result).1, nullish_of_present _ _ h₁ h₂]
  · rw [(readProp_getSettings result).1]
    rcases h with h | h <;> rw [h] <;> rfl
  · rw [(readProp_getSettings result).2, nullish_of_present _ _ h₁ h₂]
  · rw [(readProp_getSettings result).2]
    rcases h with h | h <;> rw [h] <;> rfl

/-- Witness of C30: a stored `autoDeployEnabled: false` is returned as `false`, and the
absent `notifications` as the default record. -/
theorem getSettings_stored_or_default_witness :
    getProp (js "autoDeployEnabled") [(js "autoDeployEnabled", .bool false)] = .bool false ∧
    readProp (js "autoDeployEnabled")
        (Background.getSettings [(js "autoDeployEnabled", .bool false)])
      = some (getProp (js "autoDeployEnabled") [(js "autoDeployEnabled", .bool false)]) ∧
    getProp (js "notifications") [(js "autoDeployEnabled", .bool false)] = .undefined ∧
    readProp (js "notifications")
        (Background.getSettings [(js "autoDeployEnabled", .bool false)])
      = some (.obj [ (js "success", .bool true), (js "failures", .bool true),
                     (js "building", .bool false) ]) :=
  ⟨rfl,
    (getSettings_stored_or_default [(js "autoDeployEnabled", .bool false)]).1
      (fun h => by cases h) (fun h => by cases h),
    rfl,
    (getSettings_stored_or_default [(js "autoDeployEnabled", .bool false)]).2.2.2.1
      (Or.inl rfl)⟩

end EmergentDeploy
